import Mathlib

/-!
# Verification of the GPTIntermediary real-time messaging bridge

Shallow embedding, in Lean 4, of the three provider backend servers
(Telegram `part_007`, Slack `part_006`, WhatsApp `backend/node/whatsapp_server.js`)
of the GPTIntermediary repository, together with theorems settling the
specification claims about session guards, HTTP range streaming, polling
order, echo events, pagination, rate-limit handling, mimetype heuristics,
the bounded message cache, and cache single-flight behaviour.

JavaScript numbers that hold byte offsets, message ids and timestamps are
modelled as `Nat` / `Int` / `ℚ`; JS `Map` objects are modelled as
insertion-ordered association lists; the provider client libraries are
modelled as explicit oracles whose invocations are recorded in a trace.
-/

namespace GPTI

/-! ## JS string primitives used by the range parser

The media endpoints run `/^bytes=(\d*)-(\d*)$/i.exec(String(range).trim())`.
We model the regex directly: after trimming, the header must be the
case-insensitive literal `bytes=`, a (possibly empty) run of decimal digits,
a dash, and a second (possibly empty) run of digits.  `\d` matches exactly
the ASCII digits, which is what `Char.isDigit` decides. -/

/-- JS whitespace for `String.prototype.trim` (space, tab, newlines …). -/
def isJsSpace (c : Char) : Bool := c.isWhitespace

/-- JS `String.prototype.trim`: whitespace stripped at both ends. -/
def trimChars (cs : List Char) : List Char :=
  ((cs.dropWhile isJsSpace).reverse.dropWhile isJsSpace).reverse

/-- Value of a string of decimal digits, `parseInt(ds, 10)` on an all-digit
string; on the empty list it returns 0, matching the `m[1] ? parseInt(m[1], 10) : 0`
idiom of the source because the empty capture is falsy. -/
def digitsVal (cs : List Char) : Nat :=
  cs.foldl (fun acc c => 10 * acc + (c.toNat - '0'.toNat)) 0

/-- Strip the case-insensitive literal `bytes=` from the front, as the
anchored regex `/^bytes=.../i` requires. -/
def dropBytesMarker : List Char → Option (List Char)
  | b :: y :: t :: e :: s :: q :: rest =>
    if b.toLower = 'b' ∧ y.toLower = 'y' ∧ t.toLower = 't' ∧ e.toLower = 'e' ∧
        s.toLower = 's' ∧ q = '=' then
      some rest
    else none
  | _ => none

/-- Match `(\d*)-(\d*)$`: a greedy run of digits, a literal dash, then digits
up to the end of the string.  Since `\d` cannot match `-`, the regex matches
exactly when the remainder decomposes as digits, one dash, digits, which is
what this recursion decides. -/
def splitDashDigits : List Char → Option (List Char × List Char)
  | [] => none
  | c :: rest =>
    if c = '-' then
      if rest.all (fun x => x.isDigit) then some ([], rest) else none
    else if c.isDigit then
      match splitDashDigits rest with
      | some (g1, g2) => some (c :: g1, g2)
      | none => none
    else none

/-- The whole regex `/^bytes=(\d*)-(\d*)$/i` applied to the trimmed header,
returning the two capture groups. -/
def matchBytesRange (s : String) : Option (List Char × List Char) :=
  match dropBytesMarker (trimChars s.toList) with
  | none => none
  | some rest => splitDashDigits rest

/-! ## The media streaming range block

Both `GET /api/telegram/media/file` (part_007 lines 1346-1374) and
`GET /api/whatsapp/media/:messageId` (whatsapp_server.js lines 1065-1095)
contain the identical range-serving block, modelled once here.  The media
blob is a byte buffer; the reply captures status code, `Content-Range`
header, `Content-Length` header and body bytes. -/

/-- A byte buffer (`Buffer` in Node). -/
abbrev ByteBuf := List Nat

/-- The `Content-Range` header value: `bytes start-last/size` on a 206, or
`bytes */size` on a 416. -/
inductive ContentRange where
  | satisfied (start last size : Nat)
  | unsatisfied (size : Nat)
deriving DecidableEq, Repr

/-- Reply of the media endpoint once the blob has been resolved. -/
structure MediaReply where
  status : Nat
  contentRange : Option ContentRange
  contentLength : Option Nat
  body : ByteBuf
deriving DecidableEq, Repr

/-- The range-serving block shared verbatim by the Telegram and WhatsApp
media endpoints.  `range` is `req.headers.range`.  A nonempty digit group
always parses to a finite number, so the `!Number.isFinite` disjuncts of the
source are never true and the remaining out-of-bounds checks are kept as
written (`start < 0`, `end < 0`, `start > end`, `start >= size`). -/
def rangeSend (buffer : ByteBuf) (range : Option String) : MediaReply :=
  match range with
  | none =>
    { status := 200, contentRange := none,
      contentLength := some buffer.length, body := buffer }
  | some r =>
    let size : Int := buffer.length
    match matchBytesRange r with
    | none =>
      { status := 416, contentRange := some (.unsatisfied buffer.length),
        contentLength := none, body := [] }
    | some (g1, g2) =>
      let start : Int := if g1.isEmpty then 0 else digitsVal g1
      let last : Int := if g2.isEmpty then size - 1 else digitsVal g2
      if start < 0 ∨ last < 0 ∨ start > last ∨ start ≥ size then
        { status := 416, contentRange := some (.unsatisfied buffer.length),
          contentLength := none, body := [] }
      else
        let safeEnd : Int := min last (size - 1)
        let chunk := (buffer.drop start.toNat).take (safeEnd + 1 - start).toNat
        { status := 206,
          contentRange := some (.satisfied start.toNat safeEnd.toNat buffer.length),
          contentLength := some chunk.length, body := chunk }

/-! ### Range parser lemmas -/

/-- An insertion-ordered JS `Map` with string keys. -/
abbrev JsMap (β : Type) := List (String × β)

namespace JsMap

/-- `map.get(k)` (up to the unique-keys discipline of JS maps, the first
occurrence wins). -/
def get? {β : Type} : JsMap β → String → Option β
  | [], _ => none
  | (k2, v) :: rest, k => if k2 = k then some v else get? rest k

/-- `map.has(k)`. -/
def hasKey {β : Type} (m : JsMap β) (k : String) : Bool :=
  (get? m k).isSome

/-- `map.set(k, v)`. -/
def set {β : Type} : JsMap β → String → β → JsMap β
  | [], k, v => [(k, v)]
  | (k2, v2) :: rest, k, v =>
    if k2 = k then (k2, v) :: rest else (k2, v2) :: set rest k v

/-- `map.delete(k)`. -/
def del {β : Type} : JsMap β → String → JsMap β
  | [], _ => []
  | (k2, v2) :: rest, k => if k2 = k then rest else (k2, v2) :: del rest k

lemma set_of_not_has {β : Type} {m : JsMap β} {k : String} (v : β)
    (h : hasKey m k = false) : set m k v = m ++ [(k, v)] := by
  induction m with
  | nil => rfl
  | cons p rest ih =>
    obtain ⟨k2, v2⟩ := p
    by_cases hk : k2 = k
    · exfalso
      simp [hasKey, get?, hk] at h
    · simp only [set, if_neg hk, List.cons_append, List.cons.injEq, true_and]
      apply ih
      simpa [hasKey, get?, hk] using h

lemma length_set_le {β : Type} (m : JsMap β) (k : String) (v : β) :
    (set m k v).length ≤ m.length + 1 := by
  induction m with
  | nil => simp [set]
  | cons p rest ih =>
    obtain ⟨k2, v2⟩ := p
    by_cases hk : k2 = k
    · simp [set, hk]
    · simp only [set, if_neg hk, List.length_cons]
      omega

lemma mem_set {β : Type} {m : JsMap β} {k : String} {v : β} {p : String × β}
    (h : p ∈ set m k v) : p = (k, v) ∨ p.1 = k ∨ p ∈ m := by
  induction m with
  | nil => simp [set] at h; simp [h]
  | cons q rest ih =>
    obtain ⟨k2, v2⟩ := q
    by_cases hk : k2 = k
    · subst hk
      simp only [set, if_pos rfl] at h
      rcases List.mem_cons.mp h with h | h
      · right; left; simp [h]
      · right; right; exact List.mem_cons_of_mem _ h
    · simp only [set, if_neg hk] at h
      rcases List.mem_cons.mp h with h | h
      · right; right; simp [h]
      · rcases ih h with h | h | h
        · left; exact h
        · right; left; exact h
        · right; right; exact List.mem_cons_of_mem _ h

end JsMap

/-! ## Claim C8: the bounded WhatsApp message-object cache

`whatsapp_server.js` lines 44-80: `messageCacheById` is a `Map` from
`msg.id._serialized` to the raw message object; `cacheWhatsAppMessage`
inserts and, when the size exceeds 5000, deletes the first (oldest
inserted) key. -/

/-- The part of a raw whatsapp-web.js `Message` object the server uses. -/
structure WaMsg where
  serializedId : Option String
  fromMe : Bool
  hasMedia : Bool
  body : String
  timestamp : Int
deriving DecidableEq, Repr

/-- The key under which a message is cached:
`msg && msg.id && msg.id._serialized ? String(msg.id._serialized) : null`,
where a missing or empty (falsy) id yields `null`. -/
def msgCacheKey (m : WaMsg) : Option String :=
  match m.serializedId with
  | none => none
  | some s => if s = "" then none else some s

/-- `const firstKey = messageCacheById.keys().next().value;
if (firstKey) messageCacheById.delete(firstKey);` — delete the oldest
inserted key, guarded by its truthiness. -/
def evictOldest (m : JsMap WaMsg) : JsMap WaMsg :=
  match m with
  | [] => m
  | (k0, _) :: _ => if k0 = "" then m else JsMap.del m k0

/-- `cacheWhatsAppMessage` of whatsapp_server.js: insert keyed by the
serialized id (returning unchanged on a falsy id), then, if the size
exceeds 5000, delete the first key of the map. -/
def cacheWhatsAppMessage (cache : JsMap WaMsg) (msg : WaMsg) : JsMap WaMsg :=
  match msgCacheKey msg with
  | none => cache
  | some id =>
    let m1 := JsMap.set cache id msg
    if 5000 < m1.length then evictOldest m1 else m1

lemma evictOldest_cons {k0 : String} (v0 : WaMsg) (rest : JsMap WaMsg)
    (hk0 : k0 ≠ "") : evictOldest ((k0, v0) :: rest) = rest := by
  simp [evictOldest, hk0, JsMap.del]

/-- Invariant of the message cache: at most 5000 entries, all keyed by
nonempty ids. -/
def CacheInv (cache : JsMap WaMsg) : Prop :=
  cache.length ≤ 5000 ∧ ∀ p ∈ cache, p.1 ≠ ""

lemma msgCacheKey_ne_empty {m : WaMsg} {id : String} (h : msgCacheKey m = some id) :
    id ≠ "" := by
  unfold msgCacheKey at h
  cases hs : m.serializedId with
  | none => simp [hs] at h
  | some s =>
    simp only [hs] at h
    by_cases he : s = ""
    · simp [he] at h
    · simp only [if_neg he, Option.some.injEq] at h
      subst h
      exact he

lemma cacheInv_step (cache : JsMap WaMsg) (msg : WaMsg) (hinv : CacheInv cache) :
    CacheInv (cacheWhatsAppMessage cache msg) := by
  obtain ⟨hlen, hkeys⟩ := hinv
  unfold cacheWhatsAppMessage
  cases hk : msgCacheKey msg with
  | none => exact ⟨hlen, hkeys⟩
  | some id =>
    have hid : id ≠ "" := msgCacheKey_ne_empty hk
    have hkeys1 : ∀ p ∈ JsMap.set cache id msg, p.1 ≠ "" := by
      intro p hp
      rcases JsMap.mem_set hp with h | h | h
      · subst h; exact hid
      · rw [h]; exact hid
      · exact hkeys p h
    have hlen1 := JsMap.length_set_le cache id msg
    show CacheInv (if 5000 < (JsMap.set cache id msg).length then
      evictOldest (JsMap.set cache id msg) else JsMap.set cache id msg)
    split
    · next hgt =>
      rcases hm1 : JsMap.set cache id msg with _ | ⟨⟨k0, v0⟩, rest⟩
      · exact ⟨by simp [evictOldest], by simp [evictOldest]⟩
      · have hk0 : k0 ≠ "" := by
          apply hkeys1 (k0, v0)
          rw [hm1]
          exact List.mem_cons_self _ _
        rw [evictOldest_cons v0 rest hk0]
        constructor
        · rw [hm1] at hgt hlen1
          simp only [List.length_cons] at hgt hlen1
          omega
        · intro p hp
          apply hkeys1
          rw [hm1]
          exact List.mem_cons_of_mem _ hp
    · next hle =>
      exact ⟨by omega, hkeys1⟩

/-- Claim C8.  The in-memory message-object cache is bounded: (1) one
insertion preserves the invariant "at most 5000 entries", so after any
insertion the cache holds at most 5000 entries; (2) any sequence of
insertions starting from the empty cache stays within 5000 entries; and
(3) inserting a fresh id into a full cache (5000 entries) appends the new
entry and evicts exactly the first, i.e. oldest-inserted, entry. -/
theorem claim_C8_bounded_message_cache :
    (∀ (cache : JsMap WaMsg) (msg : WaMsg), CacheInv cache →
      (cacheWhatsAppMessage cache msg).length ≤ 5000 ∧
        CacheInv (cacheWhatsAppMessage cache msg)) ∧
    (∀ msgs : List WaMsg,
      (msgs.foldl cacheWhatsAppMessage []).length ≤ 5000) ∧
    (∀ (cache : JsMap WaMsg) (msg : WaMsg) (id : String),
      msgCacheKey msg = some id → cache.length = 5000 →
      JsMap.hasKey cache id = false → (∀ p ∈ cache, p.1 ≠ "") →
      cacheWhatsAppMessage cache msg = cache.tail ++ [(id, msg)]) := by
  refine ⟨fun cache msg hinv => ⟨(cacheInv_step cache msg hinv).1, cacheInv_step cache msg hinv⟩,
    ?_, ?_⟩
  · intro msgs
    have h : ∀ (start : JsMap WaMsg), CacheInv start →
        CacheInv (msgs.foldl cacheWhatsAppMessage start) := by
      induction msgs with
      | nil => intro start hs; simpa using hs
      | cons m rest ih =>
        intro start hs
        exact ih _ (cacheInv_step start m hs)
    exact (h [] ⟨by simp, by simp⟩).1
  · intro cache msg id hk hfull hfresh hkeys
    unfold cacheWhatsAppMessage
    rw [hk]
    show (if 5000 < (JsMap.set cache id msg).length then
      evictOldest (JsMap.set cache id msg) else JsMap.set cache id msg) =
        cache.tail ++ [(id, msg)]
    have hset : JsMap.set cache id msg = cache ++ [(id, msg)] :=
      JsMap.set_of_not_has msg hfresh
    rw [hset, if_pos (by simp [hfull])]
    rcases hc : cache with _ | ⟨⟨k0, v0⟩, rest⟩
    · exfalso; rw [hc] at hfull; simp at hfull
    · have hk0 : k0 ≠ "" := by
        apply hkeys (k0, v0)
        rw [hc]
        exact List.mem_cons_self _ _
      simp only [List.cons_append]
      rw [evictOldest_cons v0 (rest ++ [(id, msg)]) hk0]
      simp

/-- Witness for C8: a full cache of 5000 entries under key "a" evicts its
head when the fresh id "x" is inserted. -/
theorem claim_C8_bounded_message_cache_witness :
    cacheWhatsAppMessage
        (List.replicate 5000 ("a", WaMsg.mk (some "a") false false "" 0))
        (WaMsg.mk (some "x") false false "" 0) =
      (List.replicate 5000 ("a", WaMsg.mk (some "a") false false "" 0)).tail ++
        [("x", WaMsg.mk (some "x") false false "" 0)] := by
  apply claim_C8_bounded_message_cache.2.2
  · rfl
  · rw [List.length_replicate]
  · have hfresh : ∀ n, JsMap.hasKey
        (List.replicate n ("a", WaMsg.mk (some "a") false false "" 0)) "x" = false := by
      intro n
      induction n with
      | zero => rfl
      | succ k ih =>
        rw [List.replicate_succ]
        simp only [JsMap.hasKey, JsMap.get?] at ih ⊢
        rw [if_neg (by decide)]
        exact ih
    exact hfresh 5000
  · intro p hp
    have hpa := List.eq_of_mem_replicate hp
    subst hpa
    decide

/-! ## Claim C7: Telegram media descriptor mimetype heuristics

`part_007` lines 126-160 (`guessMimeTypeFromFilename`) and 162-218
(`getTelegramMediaMeta`). -/

/-- JS truthiness projection for string-valued fields: `null`/missing and
the empty string are falsy. -/
def truthy : Option String → Option String
  | none => none
  | some s => if s = "" then none else some s

/-- `String.prototype.toLowerCase` (ASCII part). -/
def lowerChars (cs : List Char) : List Char := cs.map Char.toLower

/-- `str.endsWith(suffix)`. -/
def endsWithChars (suffix cs : List Char) : Bool := decide (suffix <:+ cs)

/-- `name.includes('.') ? name.split('.').pop() : ''`: the segment after
the last dot (`none` when there is no dot, which the caller treats like the
empty extension). -/
def extAux : List Char → Option (List Char) → Option (List Char)
  | [], acc => acc
  | c :: rest, acc =>
    extAux rest (if c = '.' then some [] else acc.map (fun a => a ++ [c]))

/-- The `switch (ext)` table of `guessMimeTypeFromFilename`. -/
def extSwitch (ext : String) : Option String :=
  if ext = "m4a" then some "audio/mp4"
  else if ext = "mp3" then some "audio/mpeg"
  else if ext = "wav" then some "audio/wav"
  else if ext = "ogg" then some "audio/ogg"
  else if ext = "opus" then some "audio/ogg"
  else if ext = "webm" then some "audio/webm"
  else if ext = "mp4" then some "video/mp4"
  else if ext = "mov" then some "video/quicktime"
  else if ext = "webp" then some "image/webp"
  else if ext = "gif" then some "image/gif"
  else if ext = "jpg" then some "image/jpeg"
  else if ext = "jpeg" then some "image/jpeg"
  else if ext = "png" then some "image/png"
  else none

/-- `guessMimeTypeFromFilename` of part_007: `null` on a falsy filename,
otherwise the switch over the lowercased extension after the last dot. -/
def guessMimeTypeFromFilename (filename : Option String) : Option String :=
  match truthy filename with
  | none => none
  | some f =>
    let name := lowerChars f.toList
    let ext := (extAux name none).getD []
    extSwitch (String.mk ext)

/-- `String(mimeType).split(';')[0].trim().toLowerCase()`. -/
def normalizeMime (s : String) : String :=
  String.mk (lowerChars (trimChars (s.toList.takeWhile (fun c => c ≠ ';'))))

/-- A `DocumentAttributeFilename`-style attribute of a GramJS document. -/
structure TgDocAttr where
  className : String
  fileName : Option String
deriving DecidableEq, Repr

/-- The fields of a GramJS `Document` object the server reads. -/
structure TgDoc where
  mimeType : Option String
  fileName : Option String
  attributes : Option (List TgDocAttr)
deriving DecidableEq, Repr

/-- The fields of a GramJS `message.media` object the server reads (the
`className` stands for `String(media.className || '')`; `attributes` is
`none` when `media.attributes` is not an array). -/
structure TgMediaObj where
  className : String
  document : Option TgDoc
  mimeType : Option String
  fileName : Option String
  attributes : Option (List TgDocAttr)
deriving DecidableEq, Repr

/-- The media descriptor recorded by ingestion. -/
structure TgMediaMeta where
  hasMedia : Bool
  mimeType : Option String
  filename : Option String
deriving DecidableEq, Repr

/-- `className.includes(needle)`. -/
def strContains (hay needle : String) : Bool :=
  decide (needle.toList <:+: hay.toList)

/-- `getTelegramMediaMeta` of part_007 applied to `message.media`
(`none` when the message has no media object). -/
def getTelegramMediaMeta (media : Option TgMediaObj) : TgMediaMeta :=
  match media with
  | none => ⟨false, none, none⟩
  | some m =>
    if m.className = "" ∨ strContains m.className "MessageMediaEmpty" then
      ⟨false, none, none⟩
    else if ¬ strContains m.className "Photo" = true ∧
        ¬ strContains m.className "Document" = true then
      ⟨false, none, none⟩
    else
      let mime0 : Option String :=
        if strContains m.className "Photo" then some "image/jpeg"
        else
          match m.document with
          | some doc =>
            (match truthy doc.mimeType with
             | some s => some s
             | none => truthy m.mimeType)
          | none =>
            (match truthy m.mimeType with
             | some s => some s
             | none => truthy m.mimeType)
      let fname0 : Option String :=
        if strContains m.className "Photo" then none
        else
          match truthy m.fileName with
          | some s => some s
          | none =>
            match m.document with
            | some doc => truthy doc.fileName
            | none => truthy m.fileName
      let attrs : List TgDocAttr :=
        if strContains m.className "Photo" then []
        else
          match m.document with
          | some doc =>
            (match doc.attributes with
             | some a => a
             | none => m.attributes.getD [])
          | none => m.attributes.getD []
      let fname1 : Option String :=
        match attrs.find? (fun a =>
            a.className = "DocumentAttributeFilename" ∧ (truthy a.fileName).isSome) with
        | some a => truthy a.fileName
        | none => fname0
      let lowerName : List Char :=
        match fname1 with
        | some f => lowerChars f.toList
        | none => []
      let mime1 : Option String :=
        if endsWithChars ['.', 't', 'g', 's'] lowerName then
          some "application/x-tgsticker"
        else mime0
      let guessed := guessMimeTypeFromFilename fname1
      let current : String :=
        match mime1 with
        | some mt => normalizeMime mt
        | none => ""
      let mime2 : Option String :=
        match guessed with
        | some g =>
          if current = "" ∨ current = "application/octet-stream" ∨
              (current = "audio/mpeg" ∧
                endsWithChars ['.', 'm', '4', 'a'] lowerName) then
            some g
          else mime1
        | none => mime1
      ⟨true, truthy mime2, truthy fname1⟩

/-- A document message media with declared mimetype `mt` and filename `fn`
carried on the GramJS document (the common shape). -/
def mkDocMedia (mt : Option String) (fn : Option String) : TgMediaObj :=
  { className := "MessageMediaDocument",
    document := some { mimeType := mt, fileName := fn, attributes := some [] },
    mimeType := none, fileName := none, attributes := none }

/-! ### C7 lemmas -/

lemma extAux_append (l1 l2 : List Char) (acc : Option (List Char)) :
    extAux (l1 ++ l2) acc = extAux l2 (extAux l1 acc) := by
  induction l1 generalizing acc with
  | nil => simp [extAux]
  | cons c rest ih => simp [extAux, ih]

lemma lowerChars_ne_nil {f : String} {pre : List Char} {suffix : List Char}
    (hsuf : suffix ≠ []) (hpre : lowerChars f.toList = pre ++ suffix) : f ≠ "" := by
  intro h
  subst h
  simp only [lowerChars] at hpre
  have : ([] : List Char) = pre ++ suffix := by simpa using hpre
  exact hsuf (by simpa using (List.append_eq_nil.mp this.symm).2)

lemma guess_of_m4a (f : String) (pre : List Char)
    (hpre : lowerChars f.toList = pre ++ ['.', 'm', '4', 'a']) :
    guessMimeTypeFromFilename (some f) = some "audio/mp4" := by
  have hf : f ≠ "" := lowerChars_ne_nil (by simp) hpre
  unfold guessMimeTypeFromFilename
  have htr : truthy (some f) = some f := by simp [truthy, hf]
  rw [htr]
  simp only [hpre, extAux_append]
  rfl

lemma ends_m4a_not_tgs (cs pre : List Char) (hpre : cs = pre ++ ['.', 'm', '4', 'a']) :
    endsWithChars ['.', 't', 'g', 's'] cs = false := by
  subst hpre
  apply decide_eq_false
  rintro ⟨t, ht⟩
  have h2 := congrArg List.reverse ht
  simp [List.reverse_append] at h2

lemma ends_m4a_true (cs pre : List Char) (hpre : cs = pre ++ ['.', 'm', '4', 'a']) :
    endsWithChars ['.', 'm', '4', 'a'] cs = true := by
  subst hpre
  simp only [endsWithChars]
  exact decide_eq_true ⟨pre, rfl⟩

lemma normalizeMime_empty : normalizeMime "" = "" := rfl

/-- Evaluation of `getTelegramMediaMeta` on a plain document media: the
descriptor keeps `hasMedia = true` and the document filename, and its
mimetype is the declared one transformed by the `.tgs` override and the
extension-guess override exactly as in the source. -/
lemma meta_doc_eval (mt : Option String) (f : String) (hf : f ≠ "") :
    getTelegramMediaMeta (some (mkDocMedia mt (some f))) =
      (let lowerName := lowerChars f.toList
       let mime1 : Option String :=
         if endsWithChars ['.', 't', 'g', 's'] lowerName then
           some "application/x-tgsticker"
         else truthy mt
       let current : String :=
         match mime1 with
         | some s => normalizeMime s
         | none => ""
       let mime2 : Option String :=
         match guessMimeTypeFromFilename (some f) with
         | some g =>
           if current = "" ∨ current = "application/octet-stream" ∨
               (current = "audio/mpeg" ∧
                 endsWithChars ['.', 'm', '4', 'a'] lowerName) then
             some g
           else mime1
         | none => mime1
       ⟨true, truthy mime2, some f⟩) := by
  have hC1 : strContains "MessageMediaDocument" "MessageMediaEmpty" = false := by decide
  have hC2 : strContains "MessageMediaDocument" "Photo" = false := by decide
  have hC3 : strContains "MessageMediaDocument" "Document" = true := by decide
  have hne : ("MessageMediaDocument" = "") = False := by simp
  have htr : truthy (some f) = some f := by simp [truthy, hf]
  have htrN : truthy (none : Option String) = none := rfl
  cases mt with
  | none =>
    simp [getTelegramMediaMeta, mkDocMedia, hC1, hC2, hC3, hne, htr, htrN]
  | some d =>
    by_cases hd : d = ""
    · simp [getTelegramMediaMeta, mkDocMedia, hC1, hC2, hC3, hne, htr, htrN, truthy, hd, hf]
    · have htrD : truthy (some d) = some d := by simp [truthy, hd]
      simp [getTelegramMediaMeta, mkDocMedia, hC1, hC2, hC3, hne, htr, htrN, htrD]

lemma extSwitch_ne_empty {e g : String} (h : extSwitch e = some g) : g ≠ "" := by
  unfold extSwitch at h
  by_cases h1 : e = "m4a"
  · rw [if_pos h1] at h
    injection h with h
    subst h
    decide
  rw [if_neg h1] at h
  by_cases h2 : e = "mp3"
  · rw [if_pos h2] at h
    injection h with h
    subst h
    decide
  rw [if_neg h2] at h
  by_cases h3 : e = "wav"
  · rw [if_pos h3] at h
    injection h with h
    subst h
    decide
  rw [if_neg h3] at h
  by_cases h4 : e = "ogg"
  · rw [if_pos h4] at h
    injection h with h
    subst h
    decide
  rw [if_neg h4] at h
  by_cases h5 : e = "opus"
  · rw [if_pos h5] at h
    injection h with h
    subst h
    decide
  rw [if_neg h5] at h
  by_cases h6 : e = "webm"
  · rw [if_pos h6] at h
    injection h with h
    subst h
    decide
  rw [if_neg h6] at h
  by_cases h7 : e = "mp4"
  · rw [if_pos h7] at h
    injection h with h
    subst h
    decide
  rw [if_neg h7] at h
  by_cases h8 : e = "mov"
  · rw [if_pos h8] at h
    injection h with h
    subst h
    decide
  rw [if_neg h8] at h
  by_cases h9 : e = "webp"
  · rw [if_pos h9] at h
    injection h with h
    subst h
    decide
  rw [if_neg h9] at h
  by_cases h10 : e = "gif"
  · rw [if_pos h10] at h
    injection h with h
    subst h
    decide
  rw [if_neg h10] at h
  by_cases h11 : e = "jpg"
  · rw [if_pos h11] at h
    injection h with h
    subst h
    decide
  rw [if_neg h11] at h
  by_cases h12 : e = "jpeg"
  · rw [if_pos h12] at h
    injection h with h
    subst h
    decide
  rw [if_neg h12] at h
  by_cases h13 : e = "png"
  · rw [if_pos h13] at h
    injection h with h
    subst h
    decide
  rw [if_neg h13] at h
  exact Option.noConfusion h

lemma guess_ne_empty {o : Option String} {g : String}
    (h : guessMimeTypeFromFilename o = some g) : g ≠ "" := by
  unfold guessMimeTypeFromFilename at h
  rcases hto : truthy o with _ | f
  · rw [hto] at h
    exact Option.noConfusion h
  · rw [hto] at h
    exact extSwitch_ne_empty h

lemma normalizeMime_of_empty {d : String} (h : normalizeMime d ≠ "") : d ≠ "" := by
  intro he
  subst he
  exact h rfl

/-- Claim C7.  On a Telegram document message whose declared mimetype is
`mt` and whose filename is `f`, the recorded media descriptor replaces the
declared mimetype with the one inferred from the filename extension exactly
when the declared one is (1) absent, (2) generic
(`application/octet-stream`), or (3) `audio/mpeg` declared for a `.m4a`
voice note (the "obviously wrong" case of the source); (4) otherwise the
declared mimetype is kept.  Filenames indicating a `.tgs` sticker, which
take a separate hard-coded override, are excluded from (1), (2) and (4). -/
theorem claim_C7_mimetype_override :
    (∀ f g : String, guessMimeTypeFromFilename (some f) = some g → f ≠ "" →
      endsWithChars ['.', 't', 'g', 's'] (lowerChars f.toList) = false →
      (getTelegramMediaMeta (some (mkDocMedia none (some f)))).mimeType = some g) ∧
    (∀ d f g : String, guessMimeTypeFromFilename (some f) = some g → f ≠ "" →
      endsWithChars ['.', 't', 'g', 's'] (lowerChars f.toList) = false →
      normalizeMime d = "application/octet-stream" →
      (getTelegramMediaMeta (some (mkDocMedia (some d) (some f)))).mimeType = some g) ∧
    (∀ (d f : String) (pre : List Char),
      lowerChars f.toList = pre ++ ['.', 'm', '4', 'a'] →
      normalizeMime d = "audio/mpeg" →
      (getTelegramMediaMeta (some (mkDocMedia (some d) (some f)))).mimeType =
        some "audio/mp4") ∧
    (∀ d f : String, f ≠ "" →
      endsWithChars ['.', 't', 'g', 's'] (lowerChars f.toList) = false →
      normalizeMime d ≠ "" → normalizeMime d ≠ "application/octet-stream" →
      ¬ (normalizeMime d = "audio/mpeg" ∧
          endsWithChars ['.', 'm', '4', 'a'] (lowerChars f.toList) = true) →
      (getTelegramMediaMeta (some (mkDocMedia (some d) (some f)))).mimeType =
        some d) := by
  refine ⟨?_, ?_, ?_, ?_⟩
  · intro f g hguess hf htgs
    have hg : g ≠ "" := guess_ne_empty hguess
    rw [meta_doc_eval none f hf]
    simp only [String.toList] at htgs
    simp [htgs, hguess, truthy, hg]
  · intro d f g hguess hf htgs hnorm
    have hg : g ≠ "" := guess_ne_empty hguess
    have hd : d ≠ "" := by
      intro he
      rw [he, normalizeMime_empty] at hnorm
      exact absurd hnorm.symm (by decide)
    rw [meta_doc_eval (some d) f hf]
    simp only [String.toList] at htgs
    simp [htgs, hguess, truthy, hg, hd, hnorm]
  · intro d f pre hpre hnorm
    have hf : f ≠ "" := lowerChars_ne_nil (by simp) hpre
    have htgs := ends_m4a_not_tgs _ pre hpre
    have hm4a := ends_m4a_true _ pre hpre
    have hguess := guess_of_m4a f pre hpre
    have hd : d ≠ "" := by
      intro he
      rw [he, normalizeMime_empty] at hnorm
      exact absurd hnorm.symm (by decide)
    rw [meta_doc_eval (some d) f hf]
    simp only [String.toList] at htgs hm4a
    simp [htgs, hm4a, hguess, truthy, hd, hnorm]
  · intro d f hf htgs hn1 hn2 hn3
    have hd : d ≠ "" := normalizeMime_of_empty hn1
    rw [meta_doc_eval (some d) f hf]
    simp only [String.toList] at htgs hn3
    cases hguess : guessMimeTypeFromFilename (some f) with
    | none => simp [htgs, hguess, truthy, hd]
    | some g =>
      have hcond : ¬ (normalizeMime d = "" ∨
          normalizeMime d = "application/octet-stream" ∨
          (normalizeMime d = "audio/mpeg" ∧
            endsWithChars ['.', 'm', '4', 'a'] (lowerChars f.data) = true)) := by
        rintro (h | h | h)
        · exact hn1 h
        · exact hn2 h
        · exact hn3 h
      simp [htgs, hguess, truthy, hd, hcond]

/-- Witness for C7: a voice note declared `audio/mpeg` named `voice.m4a` is
re-typed `audio/mp4`; a generic `application/octet-stream` named `clip.mp4`
becomes `video/mp4`; a declared `video/mp4` with filename `a.png` is kept. -/
theorem claim_C7_mimetype_override_witness :
    (getTelegramMediaMeta (some (mkDocMedia (some "audio/mpeg") (some "voice.m4a")))).mimeType =
      some "audio/mp4" ∧
    (getTelegramMediaMeta (some (mkDocMedia (some "application/octet-stream")
      (some "clip.mp4")))).mimeType = some "video/mp4" ∧
    (getTelegramMediaMeta (some (mkDocMedia (some "video/mp4") (some "a.png")))).mimeType =
      some "video/mp4" := by
  refine ⟨?_, ?_, ?_⟩
  · exact claim_C7_mimetype_override.2.2.1 "audio/mpeg" "voice.m4a"
      ['v', 'o', 'i', 'c', 'e'] (by decide) (by decide)
  · exact claim_C7_mimetype_override.2.1 "application/octet-stream" "clip.mp4"
      "video/mp4" (by decide) (by decide) (by decide) (by decide)
  · exact claim_C7_mimetype_override.2.2.2 "video/mp4" "a.png"
      (by decide) (by decide) (by decide) (by decide) (by decide)

/-! ## Slack real-time polling (part_006, `startRealtimePolling`, lines 545-643)

The poll cycle walks the actively-monitored channels sequentially.  For
each channel it fetches the most recent page (`conversations.history`,
newest first), collects the messages strictly newer than the per-channel
watermark (`lastMessageTimestamps`), stopping at the first non-new message,
then emits the collected messages *in page order* (newest first) to the
channel room and advances the watermark to the newest collected timestamp.
A rate-limit error for a channel is caught, logged and skipped with
`continue`; other errors are also caught and logged. -/

/-- A raw Slack message of a `conversations.history` page.  `ts` is the
numeric value of the Slack timestamp string. -/
structure SlackRawMsg where
  ts : ℚ
  user : Option String
  text : String
deriving DecidableEq

/-- The formatted message (`formatSlackMessage`): id and timestamp are both
derived from `msg.ts`; `timestamp` is `parseFloat(msg.ts) * 1000`. -/
structure SlackMsgF where
  id : ℚ
  timestamp : ℚ
  body : String
deriving DecidableEq

/-- `formatSlackMessage` (part_006 lines 659-700) restricted to the fields
the ordering claims are about; it never returns `null` on a non-null
message. -/
def formatSlackMessage (m : SlackRawMsg) : SlackMsgF :=
  { id := m.ts, timestamp := m.ts * 1000, body := m.text }

/-- `!lastTs || msgTsNum > lastTsNum` — the strictly-newer test of the
polling loop (`lastTsNum` is 0 when the watermark is absent). -/
def isNew (lastTs : Option ℚ) (m : SlackRawMsg) : Bool :=
  decide (lastTs = none ∨ m.ts > lastTs.getD 0)

/-- The `for (const msg of result.messages)` loop of `startRealtimePolling`:
collect new messages in page order, track the newest timestamp
(`newestTs` starts at `lastTs`), `break` at the first non-new message. -/
def collectLoop (lastTs : Option ℚ) : List SlackRawMsg → Option ℚ →
    List SlackMsgF × Option ℚ
  | [], newestTs => ([], newestTs)
  | m :: rest, newestTs =>
    if isNew lastTs m then
      let newestTs2 :=
        if newestTs = none ∨ m.ts > newestTs.getD 0 then some m.ts else newestTs
      let res := collectLoop lastTs rest newestTs2
      (formatSlackMessage m :: res.1, res.2)
    else ([], newestTs)

/-- Per-channel outcome of one polling cycle: the messages emitted to the
channel room, in emission order, and the watermark afterwards. -/
structure PollOutcome where
  emits : List SlackMsgF
  watermark : Option ℚ
deriving DecidableEq

/-- One channel's body inside the polling cycle, given the fetched page
(newest first): emit the collected new messages in order and advance the
watermark only when something was collected. -/
def pollChannel (lastTs : Option ℚ) (page : List SlackRawMsg) : PollOutcome :=
  if page = [] then ⟨[], lastTs⟩
  else if (collectLoop lastTs page lastTs).1 = [] then ⟨[], lastTs⟩
  else ⟨(collectLoop lastTs page lastTs).1, (collectLoop lastTs page lastTs).2⟩

/-- Result of `client.conversations.history` for one channel during a
cycle: a page, a rate-limit rejection (an error whose message contains
`rate limit`), or any other error. -/
inductive FetchResult where
  | ok (page : List SlackRawMsg)
  | rateLimited
  | otherError
deriving DecidableEq

/-- One channel's step of the polling cycle over the shared watermark map:
a fetched page goes through `pollChannel`; a rate-limited or failed channel
is skipped (`continue`) leaving its watermark untouched. -/
def pollCycleStep (fetch : String → FetchResult) (wm : JsMap ℚ) (ch : String) :
    JsMap ℚ × List (String × SlackMsgF) :=
  match fetch ch with
  | .ok page =>
    if (pollChannel (JsMap.get? wm ch) page).emits = [] then (wm, [])
    else
      (match (pollChannel (JsMap.get? wm ch) page).watermark with
       | some w => JsMap.set wm ch w
       | none => wm,
       (pollChannel (JsMap.get? wm ch) page).emits.map (fun m => (ch, m)))
  | .rateLimited => (wm, [])
  | .otherError => (wm, [])

/-- The whole `for (const channelId of activeChannels)` cycle: channels are
processed sequentially; every channel is visited no matter what the earlier
ones returned. -/
def pollCycle (fetch : String → FetchResult) (wm : JsMap ℚ) :
    List String → JsMap ℚ × List (String × SlackMsgF)
  | [] => (wm, [])
  | ch :: rest =>
    let s1 := pollCycleStep fetch wm ch
    let s2 := pollCycle fetch s1.1 rest
    (s2.1, s1.2 ++ s2.2)

/-! ### Polling-order lemmas (claim C3) -/

lemma collectLoop_fst (lastTs : Option ℚ) (page : List SlackRawMsg) :
    ∀ acc, (collectLoop lastTs page acc).1 =
      (page.takeWhile (isNew lastTs)).map formatSlackMessage := by
  induction page with
  | nil => intro acc; simp [collectLoop]
  | cons m rest ih =>
    intro acc
    by_cases h : isNew lastTs m
    · simp [collectLoop, h, List.takeWhile_cons, ih]
    · simp [collectLoop, h, List.takeWhile_cons]

lemma collectLoop_snd_mono (lastTs : Option ℚ) (page : List SlackRawMsg) :
    ∀ a : ℚ, ∃ w, (collectLoop lastTs page (some a)).2 = some w ∧ a ≤ w := by
  induction page with
  | nil => intro a; exact ⟨a, rfl, le_refl a⟩
  | cons m rest ih =>
    intro a
    by_cases h : isNew lastTs m
    · by_cases hup : m.ts > a
      · have hacc : (if (some a = (none : Option ℚ)) ∨ m.ts > (some a).getD 0
            then some m.ts else some a) = some m.ts := by
          rw [if_pos]
          right
          simpa using hup
        obtain ⟨w, hw, haw⟩ := ih m.ts
        refine ⟨w, ?_, le_trans (le_of_lt hup) haw⟩
        simp only [collectLoop, h, if_true, hacc]
        exact hw
      · have hacc : (if (some a = (none : Option ℚ)) ∨ m.ts > (some a).getD 0
            then some m.ts else some a) = some a := by
          rw [if_neg]
          rintro (he | hgt)
          · exact Option.noConfusion he
          · exact hup (by simpa using hgt)
        obtain ⟨w, hw, haw⟩ := ih a
        refine ⟨w, ?_, haw⟩
        simp only [collectLoop, h, if_true, hacc]
        exact hw
    · exact ⟨a, by simp [collectLoop, h], le_refl a⟩

lemma collectLoop_le_snd (lastTs : Option ℚ) (page : List SlackRawMsg) :
    ∀ (a : ℚ) (f : SlackMsgF), f ∈ (collectLoop lastTs page (some a)).1 →
      ∀ w, (collectLoop lastTs page (some a)).2 = some w → f.timestamp ≤ 1000 * w := by
  induction page with
  | nil => intro a f hf; simp [collectLoop] at hf
  | cons m rest ih =>
    intro a f hf w hw
    by_cases h : isNew lastTs m
    · set a2 : ℚ := if m.ts > a then m.ts else a with ha2
      have hacc : (if (some a = (none : Option ℚ)) ∨ m.ts > (some a).getD 0
          then some m.ts else some a) = some a2 := by
        by_cases hup : m.ts > a
        · rw [if_pos (Or.inr (by simpa using hup)), ha2, if_pos hup]
        · rw [if_neg, ha2, if_neg hup]
          rintro (he | hgt)
          · exact Option.noConfusion he
          · exact hup (by simpa using hgt)
      have hms : m.ts ≤ a2 := by
        rw [ha2]
        by_cases hup : m.ts > a
        · rw [if_pos hup]
        · rw [if_neg hup]
          exact le_of_not_lt hup
      simp only [collectLoop, h, if_true, hacc] at hf hw
      obtain ⟨w2, hw2, ha2w⟩ := collectLoop_snd_mono lastTs rest a2
      rw [hw2] at hw
      have hww : w2 = w := by injection hw
      subst hww
      rcases List.mem_cons.mp hf with hfm | hfr
      · subst hfm
        show m.ts * 1000 ≤ 1000 * w2
        nlinarith [le_trans hms ha2w]
      · exact ih a2 f hfr w2 hw2
    · simp [collectLoop, h] at hf

lemma mem_collect_isNew (lastTs : Option ℚ) (page : List SlackRawMsg) (acc : Option ℚ)
    (f : SlackMsgF) (hf : f ∈ (collectLoop lastTs page acc).1) :
    ∃ m ∈ page, isNew lastTs m = true ∧ f = formatSlackMessage m := by
  rw [collectLoop_fst] at hf
  obtain ⟨m, hm, hfm⟩ := List.mem_map.mp hf
  exact ⟨m, (List.takeWhile_sublist _).subset hm, List.mem_takeWhile_imp hm, hfm.symm⟩

lemma pollChannel_emits_new (t : ℚ) (page : List SlackRawMsg) :
    ∀ f ∈ (pollChannel (some t) page).emits, 1000 * t < f.timestamp := by
  intro f hf
  unfold pollChannel at hf
  by_cases hp : page = []
  · rw [if_pos hp] at hf
    simp at hf
  · rw [if_neg hp] at hf
    by_cases hc : (collectLoop (some t) page (some t)).1 = []
    · rw [if_pos hc] at hf
      simp at hf
    · rw [if_neg hc] at hf
      obtain ⟨m, _, hnew, hfm⟩ := mem_collect_isNew (some t) page (some t) f hf
      subst hfm
      have hd : (some t : Option ℚ) = none ∨ m.ts > (some t : Option ℚ).getD 0 :=
        of_decide_eq_true hnew
      rcases hd with he | hgt
      · exact Option.noConfusion he
      · show 1000 * t < m.ts * 1000
        have : t < m.ts := by simpa using hgt
        nlinarith

lemma pollChannel_emits_le_wm (t : ℚ) (page : List SlackRawMsg) :
    ∀ f ∈ (pollChannel (some t) page).emits, ∀ w,
      (pollChannel (some t) page).watermark = some w → f.timestamp ≤ 1000 * w := by
  intro f hf w hw
  unfold pollChannel at hf hw
  by_cases hp : page = []
  · rw [if_pos hp] at hf
    simp at hf
  · rw [if_neg hp] at hf hw
    by_cases hc : (collectLoop (some t) page (some t)).1 = []
    · rw [if_pos hc] at hf
      simp at hf
    · rw [if_neg hc] at hf hw
      exact collectLoop_le_snd (some t) page t f hf w hw

lemma pollChannel_wm_some (t : ℚ) (page : List SlackRawMsg)
    (h : (pollChannel (some t) page).emits ≠ []) :
    ∃ w, (pollChannel (some t) page).watermark = some w := by
  unfold pollChannel at h ⊢
  by_cases hp : page = []
  · rw [if_pos hp] at h
    simp at h
  · rw [if_neg hp] at h ⊢
    by_cases hc : (collectLoop (some t) page (some t)).1 = []
    · rw [if_pos hc] at h
      simp at h
    · rw [if_neg hc]
      obtain ⟨w, hw, _⟩ := collectLoop_snd_mono (some t) page t
      exact ⟨w, hw⟩

/-- Counterexample to claim C3: with watermark 0, a poll cycle fetching the
newest-first page `ts=10, ts=5` delivers both messages to the Broadcast Hub
room in the order `10, 5` — timestamps 10000 then 5000 — which is not
non-decreasing. -/
theorem claim_C3_counterexample :
    (pollChannel (some 0) [⟨10, none, "a"⟩, ⟨5, none, "b"⟩]).emits.map
        SlackMsgF.timestamp = [10000, 5000] ∧
    ¬ ((pollChannel (some 0) [⟨10, none, "a"⟩, ⟨5, none, "b"⟩]).emits.map
        SlackMsgF.timestamp).Pairwise (fun x y => x ≤ y) := by
  have hcl : collectLoop (some 0) [⟨10, none, "a"⟩, ⟨5, none, "b"⟩] (some 0) =
      ([⟨10, 10000, "a"⟩, ⟨5, 5000, "b"⟩], some 10) := by
    norm_num [collectLoop, isNew, formatSlackMessage]
    simp
  have hpc : pollChannel (some 0) [⟨10, none, "a"⟩, ⟨5, none, "b"⟩] =
      ⟨[⟨10, 10000, "a"⟩, ⟨5, 5000, "b"⟩], some 10⟩ := by
    rw [pollChannel, if_neg (by simp), hcl]
    simp
  rw [hpc]
  norm_num [List.pairwise_cons]

/-- Claim C3 (amended).  Within one conversation, given the provider's
newest-first page contract, one polling cycle delivers its batch in
non-increasing (newest-first) timestamp order — the reverse of the claimed
non-decreasing order; every delivered message is strictly newer than the
cycle's starting watermark; the watermark then bounds the whole batch, so
every message of a later cycle is strictly newer than every message of an
earlier cycle. -/
theorem claim_C3_ordering_amended (lastTs : ℚ) (page : List SlackRawMsg)
    (hsorted : page.Pairwise (fun a b => b.ts ≤ a.ts)) :
    ((pollChannel (some lastTs) page).emits.map SlackMsgF.timestamp).Pairwise
        (fun x y => y ≤ x) ∧
    (∀ f ∈ (pollChannel (some lastTs) page).emits, 1000 * lastTs < f.timestamp) ∧
    (∀ f ∈ (pollChannel (some lastTs) page).emits, ∀ w,
      (pollChannel (some lastTs) page).watermark = some w →
        f.timestamp ≤ 1000 * w) ∧
    (∀ (page2 : List SlackRawMsg) (f1 f2 : SlackMsgF),
      f1 ∈ (pollChannel (some lastTs) page).emits →
      f2 ∈ (pollChannel (pollChannel (some lastTs) page).watermark page2).emits →
      f1.timestamp < f2.timestamp) := by
  refine ⟨?_, pollChannel_emits_new lastTs page, pollChannel_emits_le_wm lastTs page, ?_⟩
  · unfold pollChannel
    split
    · simp
    · split
      · simp
      · next hne =>
        simp only
        rw [collectLoop_fst]
        rw [List.pairwise_map, List.pairwise_map]
        have hsub : (page.takeWhile (isNew (some lastTs))).Pairwise
            (fun a b => b.ts ≤ a.ts) :=
          hsorted.sublist (List.takeWhile_sublist _)
        apply hsub.imp
        intro a b hab
        show b.ts * 1000 ≤ a.ts * 1000
        nlinarith
  · intro page2 f1 f2 hf1 hf2
    have hne : (pollChannel (some lastTs) page).emits ≠ [] := by
      intro he
      rw [he] at hf1
      simp at hf1
    obtain ⟨w, hw⟩ := pollChannel_wm_some lastTs page hne
    have h1 := pollChannel_emits_le_wm lastTs page f1 hf1 w hw
    rw [hw] at hf2
    have h2 := pollChannel_emits_new w page2 f2 hf2
    linarith

/-! ### Claim C6: rate-limit handling in the polling cycle -/

lemma get?_set_ne {β : Type} (m : JsMap β) (k k2 : String) (v : β) (h : k2 ≠ k) :
    JsMap.get? (JsMap.set m k v) k2 = JsMap.get? m k2 := by
  induction m with
  | nil => simp [JsMap.set, JsMap.get?, Ne.symm h]
  | cons p rest ih =>
    obtain ⟨k3, v3⟩ := p
    by_cases hk : k3 = k
    · subst hk
      simp [JsMap.set, JsMap.get?, Ne.symm h]
    · simp [JsMap.set, JsMap.get?, hk, ih]

lemma pollCycleStep_get_ne (fetch : String → FetchResult) (wm : JsMap ℚ)
    (ch A : String) (h : ch ≠ A) :
    JsMap.get? (pollCycleStep fetch wm ch).1 A = JsMap.get? wm A := by
  unfold pollCycleStep
  cases fetch ch with
  | ok page =>
    by_cases he : (pollChannel (JsMap.get? wm ch) page).emits = []
    · simp [he]
    · simp only [he, if_false, Bool.false_eq_true]
      cases (pollChannel (JsMap.get? wm ch) page).watermark with
      | some w => exact get?_set_ne wm ch A w (Ne.symm h)
      | none => rfl
  | rateLimited => rfl
  | otherError => rfl

lemma pollCycleStep_ok_emits (fetch : String → FetchResult) (wm : JsMap ℚ)
    (ch : String) (page : List SlackRawMsg) (h : fetch ch = .ok page) :
    (pollCycleStep fetch wm ch).2 =
      (pollChannel (JsMap.get? wm ch) page).emits.map (fun m => (ch, m)) := by
  unfold pollCycleStep
  rw [h]
  by_cases he : (pollChannel (JsMap.get? wm ch) page).emits = []
  · simp [he]
  · simp only [he, if_false, Bool.false_eq_true]

/-- Claim C6.  During one polling cycle: (1) a rate-limited conversation is
skipped and the cycle degenerates to the cycle over the remaining
conversations, which are therefore all still polled, with the whole cycle
remaining a total function (the loop does not fail); (2) a cycle over
conversations other than `A` leaves `A`'s watermark untouched; (3) on the
next cycle, the rate-limited conversation is polled again, against the same
watermark it had before the rate-limited cycle. -/
theorem claim_C6_rate_limit_skips_one_channel :
    (∀ (fetch : String → FetchResult) (wm : JsMap ℚ) (A : String)
        (rest : List String), fetch A = .rateLimited →
      pollCycle fetch wm (A :: rest) = pollCycle fetch wm rest) ∧
    (∀ (fetch : String → FetchResult) (wm : JsMap ℚ) (chans : List String)
        (A : String), (∀ ch ∈ chans, ch ≠ A) →
      JsMap.get? (pollCycle fetch wm chans).1 A = JsMap.get? wm A) ∧
    (∀ (fetch fetch2 : String → FetchResult) (wm : JsMap ℚ) (A : String)
        (rest : List String) (page : List SlackRawMsg),
      fetch A = .rateLimited → (∀ ch ∈ rest, ch ≠ A) → fetch2 A = .ok page →
      (pollCycleStep fetch2 (pollCycle fetch wm (A :: rest)).1 A).2 =
        (pollChannel (JsMap.get? wm A) page).emits.map (fun m => (A, m))) := by
  have hskip : ∀ (fetch : String → FetchResult) (wm : JsMap ℚ) (A : String)
      (rest : List String), fetch A = .rateLimited →
      pollCycle fetch wm (A :: rest) = pollCycle fetch wm rest := by
    intro fetch wm A rest hA
    show ((pollCycle fetch (pollCycleStep fetch wm A).1 rest).1,
      (pollCycleStep fetch wm A).2 ++ (pollCycle fetch (pollCycleStep fetch wm A).1 rest).2) =
      pollCycle fetch wm rest
    have hstep : pollCycleStep fetch wm A = (wm, []) := by
      unfold pollCycleStep
      rw [hA]
    rw [hstep]
    simp
  have huntouched : ∀ (fetch : String → FetchResult) (wm : JsMap ℚ)
      (chans : List String) (A : String), (∀ ch ∈ chans, ch ≠ A) →
      JsMap.get? (pollCycle fetch wm chans).1 A = JsMap.get? wm A := by
    intro fetch wm chans
    induction chans generalizing wm with
    | nil => intro A _; rfl
    | cons ch rest ih =>
      intro A hA
      show JsMap.get? (pollCycle fetch (pollCycleStep fetch wm ch).1 rest).1 A = _
      rw [ih _ A (fun c hc => hA c (List.mem_cons_of_mem _ hc))]
      exact pollCycleStep_get_ne fetch wm ch A (hA ch (List.mem_cons_self _ _))
  refine ⟨hskip, huntouched, ?_⟩
  intro fetch fetch2 wm A rest page hA hrest h2
  rw [hskip fetch wm A rest hA]
  rw [pollCycleStep_ok_emits fetch2 _ A page h2]
  rw [huntouched fetch wm rest A hrest]

/-- Witness for C6: channel `A` rate-limited while `B` still delivers its
new message that cycle, and `A` is polled next cycle with its old
watermark. -/
theorem claim_C6_rate_limit_skips_one_channel_witness :
    pollCycle
        (fun c => if c = "A" then .rateLimited else .ok [⟨7, none, "hi"⟩])
        [("A", (3 : ℚ))] ["A", "B"] =
      pollCycle
        (fun c => if c = "A" then .rateLimited else .ok [⟨7, none, "hi"⟩])
        [("A", (3 : ℚ))] ["B"] ∧
    JsMap.get? (pollCycle
        (fun c => if c = "A" then .rateLimited else .ok [⟨7, none, "hi"⟩])
        [("A", (3 : ℚ))] ["B"]).1 "A" = JsMap.get? [("A", (3 : ℚ))] "A" ∧
    (pollCycleStep (fun _ => .ok [⟨9, none, "later"⟩])
        (pollCycle
          (fun c => if c = "A" then .rateLimited else .ok [⟨7, none, "hi"⟩])
          [("A", (3 : ℚ))] ["A", "B"]).1 "A").2 =
      (pollChannel (JsMap.get? [("A", (3 : ℚ))] "A")
        [⟨9, none, "later"⟩]).emits.map (fun m => ("A", m)) := by
  refine ⟨?_, ?_, ?_⟩
  · exact claim_C6_rate_limit_skips_one_channel.1
      (fun c => if c = "A" then .rateLimited else .ok [⟨7, none, "hi"⟩])
      [("A", (3 : ℚ))] "A" ["B"] (by decide)
  · exact claim_C6_rate_limit_skips_one_channel.2.1
      (fun c => if c = "A" then .rateLimited else .ok [⟨7, none, "hi"⟩])
      [("A", (3 : ℚ))] ["B"] "A" (by decide)
  · exact claim_C6_rate_limit_skips_one_channel.2.2
      (fun c => if c = "A" then .rateLimited else .ok [⟨7, none, "hi"⟩])
      (fun _ => .ok [⟨9, none, "later"⟩])
      [("A", (3 : ℚ))] "A" ["B"] [⟨9, none, "later"⟩]
      (by decide) (by decide) rfl

/-- Witness for the amended C3 on a concrete two-message page. -/
theorem claim_C3_ordering_amended_witness :
    ((pollChannel (some 0) [⟨10, none, "a"⟩, ⟨5, none, "b"⟩]).emits.map
        SlackMsgF.timestamp).Pairwise (fun x y => y ≤ x) ∧
    (∀ f ∈ (pollChannel (some 0) [⟨10, none, "a"⟩, ⟨5, none, "b"⟩]).emits,
      1000 * (0 : ℚ) < f.timestamp) := by
  have h := claim_C3_ordering_amended 0 [⟨10, none, "a"⟩, ⟨5, none, "b"⟩]
    (by norm_num [List.pairwise_cons])
  exact ⟨h.1, h.2.1⟩

/-! ## Claim C9: concurrent cache misses (`getUserInfo`, part_006 705-723)

`getUserInfo(userId)` checks `userCache.has(userId)` and returns the cached
record on a hit; on a miss it awaits `client.users.info({ user: userId })`
— the upstream fetch is issued at this await point — and on success stores
the user in the cache and returns it.  There is no in-flight-request
registry anywhere in the source: a lookup that starts while another's fetch
is pending consults only the cache, misses, and issues its own fetch.  We
model N concurrent lookups of one user id as an interleaved transition
system; a schedule lists which lookup advances at each step.
(`getEntityForChatId` of part_007 has the same cache-then-fetch shape.) -/

/-- A Slack user record. -/
structure SlackUser where
  name : String
deriving DecidableEq

/-- Phase of one in-flight `getUserInfo` call: not yet run, awaiting
`client.users.info` (the fetch was issued on entering this phase), or
returned. -/
inductive LookupPhase where
  | start
  | fetching
  | done (result : Option SlackUser)
deriving DecidableEq

/-- The interleaved system: the shared `userCache`, the number of upstream
fetches issued so far, and the phase of each concurrent lookup (all for the
same user id). -/
structure SingleFlight where
  cache : JsMap SlackUser
  fetchCount : Nat
  tasks : List LookupPhase
deriving DecidableEq

/-- One scheduling step advancing lookup `i` (no-op on an invalid index or
a finished lookup).  `user` is the record `client.users.info` returns. -/
def stepTask (userId : String) (user : SlackUser) (sys : SingleFlight)
    (i : Nat) : SingleFlight :=
  match sys.tasks.get? i with
  | none => sys
  | some .start =>
    match JsMap.get? sys.cache userId with
    | some u => { sys with tasks := sys.tasks.set i (.done (some u)) }
    | none =>
      { sys with tasks := sys.tasks.set i .fetching,
                 fetchCount := sys.fetchCount + 1 }
  | some .fetching =>
    { sys with cache := JsMap.set sys.cache userId user,
               tasks := sys.tasks.set i (.done (some user)) }
  | some (.done _) => sys

/-- Run a schedule (a list of lookup indices) from a system state. -/
def runSchedule (userId : String) (user : SlackUser) (sys : SingleFlight) :
    List Nat → SingleFlight
  | [] => sys
  | i :: rest => runSchedule userId user (stepTask userId user sys i) rest

/-- The initial state: empty cache, no fetches, `n` lookups about to run. -/
def initLookups (n : Nat) : SingleFlight :=
  ⟨[], 0, List.replicate n .start⟩

/-- Counterexample to claim C9: two concurrent lookups of the same missing
user id, interleaved so both check the cache before either fetch completes
(`[0, 1, 0, 1]`), both complete with the fetched user — and the upstream
was fetched twice, not once. -/
theorem claim_C9_counterexample :
    (runSchedule "U1" ⟨"alice"⟩ (initLookups 2) [0, 1, 0, 1]).fetchCount = 2 ∧
    (runSchedule "U1" ⟨"alice"⟩ (initLookups 2) [0, 1, 0, 1]).tasks =
      [.done (some ⟨"alice"⟩), .done (some ⟨"alice"⟩)] ∧
    ¬ (runSchedule "U1" ⟨"alice"⟩ (initLookups 2) [0, 1, 0, 1]).fetchCount = 1 := by
  refine ⟨?_, ?_, ?_⟩ <;> decide

/-! ### Amended C9 lemmas -/

/-- Count of lookups still in `start` phase. -/
def countStart (sys : SingleFlight) : Nat :=
  sys.tasks.countP (fun t => decide (t = .start))

lemma countP_set {α : Type} (p : α → Bool) (l : List α) :
    ∀ (i : Nat) (a b : α), l.get? i = some b →
      (l.set i a).countP p + (if p b then 1 else 0) =
        l.countP p + (if p a then 1 else 0) := by
  induction l with
  | nil => intro i a b hb; simp at hb
  | cons x rest ih =>
    intro i a b hb
    cases i with
    | zero =>
      simp only [List.get?] at hb
      injection hb with hb
      subst hb
      simp only [List.set, List.countP_cons]
      omega
    | succ j =>
      simp only [List.get?] at hb
      simp only [List.set, List.countP_cons]
      have := ih j a b hb
      omega

lemma stepTask_measure (userId : String) (user : SlackUser) (sys : SingleFlight)
    (i : Nat) :
    (stepTask userId user sys i).fetchCount + countStart (stepTask userId user sys i) ≤
      sys.fetchCount + countStart sys := by
  unfold stepTask
  cases hg : sys.tasks.get? i with
  | none => exact le_refl _
  | some ph =>
    cases ph with
    | start =>
      cases hc : JsMap.get? sys.cache userId with
      | some u =>
        simp only [countStart]
        have := countP_set (fun t => decide (t = LookupPhase.start)) sys.tasks i
          (.done (some u)) .start hg
        simp only [decide_eq_true_eq] at this ⊢
        simp at this
        omega
      | none =>
        simp only [countStart]
        have := countP_set (fun t => decide (t = LookupPhase.start)) sys.tasks i
          .fetching .start hg
        simp only [decide_eq_true_eq] at this ⊢
        simp at this
        omega
    | fetching =>
      simp only [countStart]
      have := countP_set (fun t => decide (t = LookupPhase.start)) sys.tasks i
        (.done (some user)) .fetching hg
      simp only [decide_eq_true_eq] at this ⊢
      simp at this
      omega
    | done r => exact le_refl _

lemma runSchedule_measure (userId : String) (user : SlackUser) :
    ∀ (sched : List Nat) (sys : SingleFlight),
      (runSchedule userId user sys sched).fetchCount +
        countStart (runSchedule userId user sys sched) ≤
      sys.fetchCount + countStart sys := by
  intro sched
  induction sched with
  | nil => intro sys; exact le_refl _
  | cons i rest ih =>
    intro sys
    calc (runSchedule userId user (stepTask userId user sys i) rest).fetchCount +
          countStart (runSchedule userId user (stepTask userId user sys i) rest)
        ≤ (stepTask userId user sys i).fetchCount +
            countStart (stepTask userId user sys i) := ih _
      _ ≤ sys.fetchCount + countStart sys := stepTask_measure userId user sys i

/-- Claim C9 (amended).  The caches are plain read-through caches with no
in-flight-request deduplication: (1) `N` concurrent lookups of one missing
key issue at most `N` upstream fetches — one per lookup, not one in total;
(2) a lookup that checks the cache after the key is present issues no fetch
and completes with the cached record; (3) a completing fetch populates the
cache; hence non-overlapping lookups fetch once in total. -/
theorem claim_C9_no_single_flight_amended :
    (∀ (n : Nat) (userId : String) (user : SlackUser) (sched : List Nat),
      (runSchedule userId user (initLookups n) sched).fetchCount ≤ n) ∧
    (∀ (userId : String) (user : SlackUser) (sys : SingleFlight) (i : Nat) (u : SlackUser),
      sys.tasks.get? i = some .start → JsMap.get? sys.cache userId = some u →
      (stepTask userId user sys i).fetchCount = sys.fetchCount ∧
        (stepTask userId user sys i).tasks = sys.tasks.set i (.done (some u))) ∧
    (∀ (userId : String) (user : SlackUser) (sys : SingleFlight) (i : Nat),
      sys.tasks.get? i = some .fetching →
      JsMap.get? (stepTask userId user sys i).cache userId = some user ∧
        (stepTask userId user sys i).fetchCount = sys.fetchCount) := by
  refine ⟨?_, ?_, ?_⟩
  · intro n userId user sched
    have h := runSchedule_measure userId user sched (initLookups n)
    have hinit : (initLookups n).fetchCount + countStart (initLookups n) = n := by
      simp [initLookups, countStart, List.countP_replicate]
    omega
  · intro userId user sys i u hs hc
    unfold stepTask
    rw [hs, hc]
    exact ⟨rfl, rfl⟩
  · intro userId user sys i hs
    unfold stepTask
    rw [hs]
    refine ⟨?_, rfl⟩
    have : ∀ m : JsMap SlackUser, JsMap.get? (JsMap.set m userId user) userId = some user := by
      intro m
      induction m with
      | nil => simp [JsMap.set, JsMap.get?]
      | cons p rest ih =>
        obtain ⟨k2, v2⟩ := p
        by_cases hk : k2 = userId
        · subst hk
          simp [JsMap.set, JsMap.get?]
        · simp [JsMap.set, JsMap.get?, hk, ih]
    exact this sys.cache

/-- Witness for the amended C9: the sequential schedule `[0, 0, 1]` (first
lookup runs to completion, then the second starts) issues exactly one
upstream fetch and the second lookup is served from the cache. -/
theorem claim_C9_no_single_flight_amended_witness :
    (runSchedule "U1" ⟨"alice"⟩ (initLookups 2) [0, 1, 0, 1]).fetchCount ≤ 2 ∧
    (stepTask "U1" ⟨"alice"⟩ ⟨[("U1", ⟨"alice"⟩)], 1, [.done (some ⟨"alice"⟩), .start]⟩
        1).fetchCount = 1 ∧
    JsMap.get? (stepTask "U1" ⟨"alice"⟩ ⟨[], 0, [.fetching]⟩ 0).cache "U1" =
      some ⟨"alice"⟩ := by
  refine ⟨?_, ?_, ?_⟩
  · exact claim_C9_no_single_flight_amended.1 2 "U1" ⟨"alice"⟩ [0, 1, 0, 1]
  · exact (claim_C9_no_single_flight_amended.2.1 "U1" ⟨"alice"⟩
      ⟨[("U1", ⟨"alice"⟩)], 1, [.done (some ⟨"alice"⟩), .start]⟩ 1 ⟨"alice"⟩
      (by decide) (by decide)).1
  · exact (claim_C9_no_single_flight_amended.2.2 "U1" ⟨"alice"⟩
      ⟨[], 0, [.fetching]⟩ 0 (by decide)).1

/-! ## Telegram server model (part_007)

The handlers are modelled as pure functions of the session flags
(`isReady`, `client !== null`), the entity cache, the request, and an
oracle standing for the GramJS client.  Every provider call a handler
makes is recorded in a `TgCall` trace; every socket.io broadcast in a
`TgEvent` trace.  Thrown provider errors are `Except.error` values caught
by the surrounding `try/catch`, which answers 500. -/

/-- The GramJS client calls the handlers can make. -/
inductive TgCall where
  | getEntity (key : String)
  | getDialogs (limit : Nat)
  | getMessages (maxId : Option Nat) (limit : Nat)
  | getMessagesByIds (id : Int)
  | sendMessage (chat : String)
  | sendFile (chat : String)
  | editMessage (chat : String) (id : Option Int)
  | deleteMessages (chat : String) (id : Int)
  | downloadMedia
  | invokeDeleteHistory
deriving DecidableEq

/-- The entity fields the server reads. -/
structure TgEntity where
  id : Nat
  title : Option String
  firstName : Option String
  lastName : Option String
deriving DecidableEq

/-- A GramJS message, with `date` already normalised to unix seconds
(`toUnixSeconds`). -/
structure TgMessage where
  id : Nat
  message : String
  date : Int
  out : Bool
  fromId : Option Nat
  media : Option TgMediaObj
deriving DecidableEq

/-- Results the GramJS client returns for each call. -/
structure TgOracle where
  getEntity : String → Except String TgEntity
  getDialogs : Nat → List TgEntity
  getMessages : Option Nat → Nat → List TgMessage
  getMessageById : Int → Option TgMessage
  downloadMedia : Option ByteBuf
  sendMessage : String → Except String TgMessage
  sendFile : String → Except String TgMessage
  editMessage : String → Option Int → Except String TgMessage
  deleteMessages : String → Int → Except String Unit

/-- JS `parseInt(s, 10)`: trim, optional sign, leading decimal digits;
`none` is `NaN`. -/
def jsParseInt (s : String) : Option Int :=
  match trimChars s.toList with
  | '-' :: rest =>
    if rest.takeWhile (fun c => c.isDigit) = [] then none
    else some (-(digitsVal (rest.takeWhile (fun c => c.isDigit)) : Int))
  | '+' :: rest =>
    if rest.takeWhile (fun c => c.isDigit) = [] then none
    else some ((digitsVal (rest.takeWhile (fun c => c.isDigit)) : Int))
  | rest =>
    if rest.takeWhile (fun c => c.isDigit) = [] then none
    else some ((digitsVal (rest.takeWhile (fun c => c.isDigit)) : Int))

/-- `getEntityForChatId` (part_007 lines 229-261): consult the entity
cache; on a miss try `client.getEntity`, caching under both the numeric id
and the requested key; on failure seed the cache from `client.getDialogs`
(limit 200) and retry the cache, else throw. -/
def getEntityForChatId (o : TgOracle) (cache : JsMap TgEntity) (chatId : String) :
    Except String TgEntity × JsMap TgEntity × List TgCall :=
  let key := String.mk (trimChars chatId.toList)
  if key = "" then (.error "chat_id is required", cache, [])
  else
    match JsMap.get? cache key with
    | some ent => (.ok ent, cache, [])
    | none =>
      match o.getEntity key with
      | .ok ent =>
        (.ok ent, JsMap.set (JsMap.set cache (toString ent.id) ent) key ent,
          [.getEntity key])
      | .error _ =>
        let cache2 := (o.getDialogs 200).foldl
          (fun c e => JsMap.set c (toString e.id) e) cache
        match JsMap.get? cache2 key with
        | some ent => (.ok ent, cache2, [.getEntity key, .getDialogs 200])
        | none =>
          (.error ("Could not resolve chat entity for " ++ key ++
            ". Try Refresh to reload chats."), cache2,
            [.getEntity key, .getDialogs 200])

/-- A formatted Telegram message as sent to the frontend (ids are
`message.id.toString()`; kept numeric here). -/
structure TgMsgF where
  id : Nat
  body : String
  fromMe : Bool
  timestamp : Int
  hasMedia : Bool
deriving DecidableEq

/-- The per-message formatting of `POST /api/telegram/messages`. -/
def formatTgMessage (m : TgMessage) : TgMsgF :=
  { id := m.id, body := m.message, fromMe := m.out, timestamp := m.date,
    hasMedia := (getTelegramMediaMeta m.media).hasMedia }

/-- The `before_id` → `params.maxId` computation of
`POST /api/telegram/messages` (lines 1106-1113): applied only when the
trimmed value is nonempty and parses to an integer strictly greater
than 1; `maxId` is then `beforeNum - 1`. -/
def beforeMaxId (before_id : Option String) : Option Nat :=
  match before_id with
  | none => none
  | some s =>
    if String.mk (trimChars s.toList) = "" then none
    else
      match jsParseInt s with
      | some n => if n > 1 then some (n - 1).toNat else none
      | none => none

/-- Response of `POST /api/telegram/messages`. -/
structure TgMessagesResp where
  status : Nat
  success : Bool
  error : Option String
  messages : List TgMsgF
  oldest_id : Option Nat
  reached_start : Option Bool
deriving DecidableEq

/-- `POST /api/telegram/messages` (lines 1082-1206): ready guard, required
`chat_id`, entity resolution, `getMessages` with the `before_id`-derived
`maxId`, formatting, stable sort by timestamp (oldest first), and the
`oldest_id` / `reached_start` pagination report. -/
def telegramMessages (o : TgOracle) (cache : JsMap TgEntity)
    (isReady hasClient : Bool) (chat_id : Option String) (limit : Nat)
    (before_id : Option String) :
    TgMessagesResp × JsMap TgEntity × List TgCall :=
  if isReady = false ∨ hasClient = false then
    (⟨400, false, some "Telegram not connected. Please authenticate first.",
      [], none, none⟩, cache, [])
  else
    match truthy chat_id with
    | none => (⟨400, false, some "chat_id is required", [], none, none⟩, cache, [])
    | some cid =>
      match getEntityForChatId o cache cid with
      | (.error e, cache2, calls) =>
        (⟨500, false, some e, [], none, none⟩, cache2, calls)
      | (.ok _, cache2, calls) =>
        let maxId := beforeMaxId before_id
        let msgs := o.getMessages maxId limit
        let formatted := (msgs.map formatTgMessage).mergeSort
          (fun a b => decide (a.timestamp ≤ b.timestamp))
        let oldestId := formatted.head?.map TgMsgF.id
        let reachedStart := decide (formatted.length < limit)
        (⟨200, true, none, formatted, oldestId, some reachedStart⟩, cache2,
          calls ++ [.getMessages maxId limit])

/-! ### Claim C5: backward pagination of `POST /api/telegram/messages` -/

lemma jsParseInt_trim_ne {s : String} {n : Int} (h : jsParseInt s = some n) :
    String.mk (trimChars s.toList) ≠ "" := by
  intro he
  have hnil : trimChars s.toList = [] := by
    have hd := congrArg String.data he
    simpa using hd
  unfold jsParseInt at h
  rw [hnil] at h
  simp at h

lemma beforeMaxId_of_parse {s : String} {n : Int} (h : jsParseInt s = some n)
    (hn : n > 1) : beforeMaxId (some s) = some (n - 1).toNat := by
  show (if String.mk (trimChars s.toList) = "" then none
    else match jsParseInt s with
      | some n => if n > 1 then some (n - 1).toNat else none
      | none => none) = some (n - 1).toNat
  rw [if_neg (jsParseInt_trim_ne h), h]
  simp [hn]

/-- A concrete oracle for the C5 counterexample: the chat resolves, and the
latest page holds the very first message of the chat (id 1). -/
def tgOracleC5 : TgOracle :=
  { getEntity := fun _ => .ok ⟨1, none, none, none⟩,
    getDialogs := fun _ => [],
    getMessages := fun _ _ => [⟨1, "first", 100, false, none, none⟩],
    getMessageById := fun _ => none,
    downloadMedia := none,
    sendMessage := fun _ => .error "unused",
    sendFile := fun _ => .error "unused",
    editMessage := fun _ _ => .error "unused",
    deleteMessages := fun _ _ => .error "unused" }

/-- Counterexample to claim C5: `before_id = 1` is supplied, but the
`beforeNum > 1` guard drops the filter, so the handler returns the latest
page — containing message id 1, which is not `< 1`. -/
theorem claim_C5_counterexample :
    ((telegramMessages tgOracleC5 [] true true (some "1") 50 (some "1")).1.messages.map
        TgMsgF.id) = [1] ∧
    ¬ (∀ i ∈ ((telegramMessages tgOracleC5 [] true true (some "1") 50
        (some "1")).1.messages.map TgMsgF.id), i < 1) := by
  have heval : (telegramMessages tgOracleC5 [] true true (some "1") 50
      (some "1")).1.messages = [⟨1, "first", false, 100, false⟩] := by
    simp [telegramMessages, tgOracleC5, truthy, getEntityForChatId, beforeMaxId,
      jsParseInt, trimChars, digitsVal, isJsSpace, formatTgMessage,
      getTelegramMediaMeta, JsMap.get?, List.mergeSort]
  rw [heval]
  constructor
  · rfl
  · intro hall
    exact absurd (hall 1 (by simp)) (by omega)

/-- Claim C5 (amended).  For `POST /api/telegram/messages` with the
provider contract that `getMessages` with `maxId = m` returns only
messages with id ≤ m: (a) when the supplied `before_id` parses to an
integer `n > 1`, every message in the page has id strictly less than `n`;
(but a supplied `before_id ≤ 1` or non-numeric value is silently ignored
and the latest page is returned — part (d): the provider is then queried
with no `maxId`); (b) `reached_start` is reported true exactly when fewer
than `limit` messages are returned; (c) the page is sorted by timestamp
(oldest first) and `oldest_id` is the id of its first, i.e. oldest,
message. -/
theorem claim_C5_pagination_amended (o : TgOracle) (cache : JsMap TgEntity)
    (chat_id : String) (limit : Nat) (before_id : String) (n : Int)
    (hprov : ∀ (m lim : Nat), ∀ msg ∈ o.getMessages (some m) lim, msg.id ≤ m) :
    (jsParseInt before_id = some n → n > 1 →
      ∀ f ∈ (telegramMessages o cache true true (some chat_id) limit
        (some before_id)).1.messages, (f.id : Int) < n) ∧
    ((telegramMessages o cache true true (some chat_id) limit
        (some before_id)).1.success = true →
      ((telegramMessages o cache true true (some chat_id) limit
        (some before_id)).1.reached_start = some true ↔
       (telegramMessages o cache true true (some chat_id) limit
        (some before_id)).1.messages.length < limit)) ∧
    ((telegramMessages o cache true true (some chat_id) limit
        (some before_id)).1.success = true →
      (telegramMessages o cache true true (some chat_id) limit
        (some before_id)).1.messages.Pairwise
          (fun a b => a.timestamp ≤ b.timestamp) ∧
      (telegramMessages o cache true true (some chat_id) limit
        (some before_id)).1.oldest_id =
        ((telegramMessages o cache true true (some chat_id) limit
          (some before_id)).1.messages.head?).map TgMsgF.id) ∧
    (beforeMaxId (some before_id) = none →
      (telegramMessages o cache true true (some chat_id) limit
        (some before_id)).1.success = true →
      TgCall.getMessages none limit ∈
        (telegramMessages o cache true true (some chat_id) limit
          (some before_id)).2.2) := by
  unfold telegramMessages
  rw [if_neg (by simp)]
  cases htc : truthy (some chat_id) with
  | none =>
    simp only [htc]
    refine ⟨?_, ?_, ?_, ?_⟩
    · intro _ _ f hf
      simp at hf
    · intro hs
      simp at hs
    · intro hs
      simp at hs
    · intro _ hs
      simp at hs
  | some cid =>
    simp only [htc]
    rcases hent : getEntityForChatId o cache cid with ⟨res, cache2, calls⟩
    cases res with
    | error e =>
      simp only [hent]
      refine ⟨?_, ?_, ?_, ?_⟩
      · intro _ _ f hf
        simp at hf
      · intro hs
        simp at hs
      · intro hs
        simp at hs
      · intro _ hs
        simp at hs
    | ok ent =>
      simp only [hent]
      refine ⟨?_, ?_, ?_, ?_⟩
      · intro hparse hn f hf
        rw [beforeMaxId_of_parse hparse hn] at hf
        have hperm := List.mergeSort_perm
          ((o.getMessages (some (n - 1).toNat) limit).map formatTgMessage)
          (fun a b => decide (a.timestamp ≤ b.timestamp))
        have hf2 : f ∈ (o.getMessages (some (n - 1).toNat) limit).map
            formatTgMessage := hperm.mem_iff.mp hf
        obtain ⟨msg, hmsg, hfm⟩ := List.mem_map.mp hf2
        have hle := hprov (n - 1).toNat limit msg hmsg
        have : f.id = msg.id := by rw [← hfm]; rfl
        rw [this]
        omega
      · intro _
        simp [decide_eq_true_eq]
      · intro _
        constructor
        · have hsorted := @List.sorted_mergeSort TgMsgF
            (fun a b : TgMsgF => decide (a.timestamp ≤ b.timestamp))
            (fun a b c hab hbc => by
              simp only [decide_eq_true_eq] at hab hbc ⊢
              omega)
            (fun a b => by
              simp only [Bool.or_eq_true, decide_eq_true_eq]
              omega)
            ((o.getMessages (beforeMaxId (some before_id)) limit).map formatTgMessage)
          exact hsorted.imp (fun h => of_decide_eq_true h)
        · first
            | rfl
            | trivial
      · intro hb _
        rw [hb]
        simp

/-- A concrete oracle for the C5 witness: `maxId = 4` (from
`before_id = "5"`) yields the two older messages 3 and 2 (newest first);
no other page is served. -/
def tgOracleC5w : TgOracle :=
  { tgOracleC5 with
    getMessages := fun maxId _ =>
      match maxId with
      | some 4 => [⟨3, "b", 30, false, none, none⟩, ⟨2, "a", 20, false, none, none⟩]
      | _ => [] }

/-- Witness for the amended C5 with `before_id = "5"` and a 2-message page. -/
theorem claim_C5_pagination_amended_witness :
    (∀ f ∈ (telegramMessages tgOracleC5w [] true true (some "c") 50
      (some "5")).1.messages, (f.id : Int) < 5) ∧
    ((telegramMessages tgOracleC5w [] true true (some "c") 50
      (some "5")).1.reached_start = some true ↔
     (telegramMessages tgOracleC5w [] true true (some "c") 50
      (some "5")).1.messages.length < 50) ∧
    (telegramMessages tgOracleC5w [] true true (some "c") 50
      (some "5")).1.messages.Pairwise (fun a b => a.timestamp ≤ b.timestamp) := by
  have hprov : ∀ (m lim : Nat), ∀ msg ∈ tgOracleC5w.getMessages (some m) lim,
      msg.id ≤ m := by
    intro m lim msg hmsg
    match m with
    | 4 =>
      simp [tgOracleC5w] at hmsg
      rcases hmsg with h | h <;> simp [h]
    | 0 | 1 | 2 | 3 => simp [tgOracleC5w] at hmsg
    | (k + 5) => simp [tgOracleC5w] at hmsg
  have h := claim_C5_pagination_amended tgOracleC5w [] "c" 50 "5" 5 hprov
  have hsucc : (telegramMessages tgOracleC5w [] true true (some "c") 50
      (some "5")).1.success = true := by
    simp [telegramMessages, tgOracleC5w, tgOracleC5, truthy, getEntityForChatId,
      trimChars, isJsSpace, JsMap.get?]
  exact ⟨h.1 (by decide) (by decide), h.2.1 hsucc, (h.2.2.1 hsucc).1⟩

/-! ### The other Telegram Command Gateway handlers -/

/-- Events broadcast by the Telegram gateway handlers
(`io.emit('telegram_outgoing_sent', …)`). -/
inductive TgEvent where
  | outgoingSent (contact_id : String) (message_id : Option Nat)
deriving DecidableEq

/-- A generic Telegram JSON reply carrying an optional message id. -/
structure ApiResp where
  status : Nat
  success : Bool
  error : Option String
  message_id : Option Int
deriving DecidableEq

/-- The not-connected reply shared by the Telegram command handlers. -/
def tgNotConnected : ApiResp :=
  ⟨400, false, some "Telegram not connected. Please authenticate first.", none⟩

/-- `POST /api/telegram/send` (part_007 lines 1507-1558): guard, required
params, entity resolution, `client.sendMessage`, and the best-effort
`telegram_outgoing_sent` echo event on success. -/
def telegramSend (o : TgOracle) (cache : JsMap TgEntity)
    (isReady hasClient : Bool) (chat_id text : Option String) :
    ApiResp × JsMap TgEntity × List TgCall × List TgEvent :=
  if isReady = false ∨ hasClient = false then (tgNotConnected, cache, [], [])
  else
    match truthy chat_id, truthy text with
    | some cid, some _txt =>
      match getEntityForChatId o cache cid with
      | (.error e, cache2, calls) => (⟨500, false, some e, none⟩, cache2, calls, [])
      | (.ok _, cache2, calls) =>
        match o.sendMessage cid with
        | .ok msg =>
          (⟨200, true, none, some (msg.id : Int)⟩, cache2,
            calls ++ [.sendMessage cid], [.outgoingSent cid (some msg.id)])
        | .error e =>
          (⟨500, false, some e, none⟩, cache2, calls ++ [.sendMessage cid], [])
    | _, _ =>
      (⟨400, false, some "chat_id and text are required", none⟩, cache, [], [])

/-- `POST /api/telegram/sendFile` (lines 1386-1420): like send, with the
`telegram_outgoing_sent` echo on success. -/
def telegramSendFile (o : TgOracle) (cache : JsMap TgEntity)
    (isReady hasClient : Bool) (chat_id data_base64 : Option String) :
    ApiResp × JsMap TgEntity × List TgCall × List TgEvent :=
  if isReady = false ∨ hasClient = false then (tgNotConnected, cache, [], [])
  else
    match truthy chat_id, truthy data_base64 with
    | some cid, some _dat =>
      match getEntityForChatId o cache cid with
      | (.error e, cache2, calls) => (⟨500, false, some e, none⟩, cache2, calls, [])
      | (.ok _, cache2, calls) =>
        match o.sendFile cid with
        | .ok sent =>
          (⟨200, true, none, some (sent.id : Int)⟩, cache2,
            calls ++ [.sendFile cid], [.outgoingSent cid (some sent.id)])
        | .error e =>
          (⟨500, false, some e, none⟩, cache2, calls ++ [.sendFile cid], [])
    | _, _ =>
      (⟨400, false, some "chat_id and data_base64 are required", none⟩, cache, [], [])

/-- `POST /api/telegram/edit` (lines 1427-1446): edits via
`client.editMessage`; `message_id` is passed through `parseInt` with no
finiteness check (`none` models `NaN`); note: no broadcast event at all. -/
def telegramEdit (o : TgOracle) (cache : JsMap TgEntity)
    (isReady hasClient : Bool) (chat_id message_id : Option String)
    (text : Option String) :
    ApiResp × JsMap TgEntity × List TgCall × List TgEvent :=
  if isReady = false ∨ hasClient = false then (tgNotConnected, cache, [], [])
  else
    match truthy chat_id, truthy message_id, text with
    | some cid, some mids, some _txt =>
      match getEntityForChatId o cache cid with
      | (.error e, cache2, calls) => (⟨500, false, some e, none⟩, cache2, calls, [])
      | (.ok _, cache2, calls) =>
        match o.editMessage cid (jsParseInt mids) with
        | .ok edited =>
          (⟨200, true, none, some (edited.id : Int)⟩, cache2,
            calls ++ [.editMessage cid (jsParseInt mids)], [])
        | .error e =>
          (⟨500, false, some e, none⟩, cache2,
            calls ++ [.editMessage cid (jsParseInt mids)], [])
    | _, _, _ =>
      (⟨400, false, some "chat_id, message_id, and text are required", none⟩,
        cache, [], [])

/-- `POST /api/telegram/delete` (lines 1481-1501): deletes via
`client.deleteMessages` after the finiteness check; no broadcast event. -/
def telegramDelete (o : TgOracle) (cache : JsMap TgEntity)
    (isReady hasClient : Bool) (chat_id message_id : Option String) :
    ApiResp × JsMap TgEntity × List TgCall × List TgEvent :=
  if isReady = false ∨ hasClient = false then (tgNotConnected, cache, [], [])
  else
    match truthy chat_id, truthy message_id with
    | some cid, some mids =>
      match getEntityForChatId o cache cid with
      | (.error e, cache2, calls) => (⟨500, false, some e, none⟩, cache2, calls, [])
      | (.ok _, cache2, calls) =>
        match jsParseInt mids with
        | none =>
          (⟨400, false, some "message_id must be a number", none⟩, cache2, calls, [])
        | some mid =>
          match o.deleteMessages cid mid with
          | .ok _ =>
            (⟨200, true, none, some mid⟩, cache2,
              calls ++ [.deleteMessages cid mid], [])
          | .error e =>
            (⟨500, false, some e, none⟩, cache2,
              calls ++ [.deleteMessages cid mid], [])
    | _, _ =>
      (⟨400, false, some "chat_id and message_id are required", none⟩, cache, [], [])

/-- Response of `POST /api/telegram/contacts`. -/
structure TgContactsResp where
  status : Nat
  success : Bool
  error : Option String
  count : Option Nat
deriving DecidableEq

/-- `POST /api/telegram/contacts` (lines 972-1076): list conversations via
`client.getDialogs`, caching every dialog entity (payload formatting
elided). -/
def telegramContacts (o : TgOracle) (cache : JsMap TgEntity)
    (isReady hasClient : Bool) (limit : Nat) :
    TgContactsResp × JsMap TgEntity × List TgCall :=
  if isReady = false ∨ hasClient = false then
    (⟨400, false, some "Telegram not connected. Please authenticate first.",
      none⟩, cache, [])
  else
    let dialogs := o.getDialogs limit
    let cache2 := dialogs.foldl (fun c e => JsMap.set c (toString e.id) e) cache
    (⟨200, true, none, some dialogs.length⟩, cache2, [.getDialogs limit])

/-- Reply of a media-file streaming endpoint: a JSON error, or binary
content with resolved mimetype, filename and the range-served reply. -/
inductive MediaFileOut where
  | jsonError (status : Nat) (error : String)
  | media (mimeType : String) (filename : String) (reply : MediaReply)
deriving DecidableEq

/-- `mime.split('/')[1] || 'bin'` over the base mimetype, used for the
generated fallback filename extension. -/
def mimeExt (mime : String) : String :=
  let base := trimChars (mime.toList.takeWhile (fun c => c ≠ ';'))
  if base.contains '/' then
    let e := ((base.dropWhile (fun c => c ≠ '/')).drop 1).takeWhile
      (fun c => c ≠ '/')
    if e = [] then "bin" else String.mk e
  else "bin"

/-- `GET /api/telegram/media/file` (lines 1304-1379): guard, parameter
checks, entity and message resolution, media download, then the shared
range block `rangeSend` over the downloaded buffer. -/
def telegramMediaFile (o : TgOracle) (cache : JsMap TgEntity)
    (isReady hasClient : Bool) (chat_id message_id : String)
    (range : Option String) :
    MediaFileOut × JsMap TgEntity × List TgCall :=
  if isReady = false ∨ hasClient = false then
    (.jsonError 400 "Telegram not connected", cache, [])
  else
    let chatId := String.mk (trimChars chat_id.toList)
    let msgId := String.mk (trimChars message_id.toList)
    if chatId = "" ∨ msgId = "" then
      (.jsonError 400 "chat_id and message_id are required", cache, [])
    else
      match getEntityForChatId o cache chatId with
      | (.error e, cache2, calls) => (.jsonError 500 e, cache2, calls)
      | (.ok _, cache2, calls) =>
        match jsParseInt msgId with
        | none => (.jsonError 400 "message_id must be a number", cache2, calls)
        | some mid =>
          match o.getMessageById mid with
          | none =>
            (.jsonError 404 "Media not found for this message", cache2,
              calls ++ [.getMessagesByIds mid])
          | some msg =>
            if (getTelegramMediaMeta msg.media).hasMedia = false then
              (.jsonError 404 "Media not found for this message", cache2,
                calls ++ [.getMessagesByIds mid])
            else
              match o.downloadMedia with
              | none =>
                (.jsonError 500 "Failed to download media", cache2,
                  calls ++ [.getMessagesByIds mid, .downloadMedia])
              | some buffer =>
                let meta := getTelegramMediaMeta msg.media
                let mimeType := meta.mimeType.getD "application/octet-stream"
                let filename :=
                  match meta.filename with
                  | some f => f
                  | none =>
                    "telegram_media_" ++ toString mid ++ "." ++ mimeExt mimeType
                (.media mimeType filename (rangeSend buffer range), cache2,
                  calls ++ [.getMessagesByIds mid, .downloadMedia])

/-! ## Slack server model (part_006)

Same style as the Telegram model.  The guard of every Slack command
handler is `if (!client || !isReady)` answering 503.  `result.ok = false`
replies from the Web API and thrown errors are both modelled as
`Except.error`. -/

/-- The Slack Web API calls the handlers can make. -/
inductive SlackCall where
  | conversationsList
  | conversationsHistory (channel : String)
  | conversationsInfo (channel : String)
  | usersInfo (user : String)
  | postMessage (channel : String)
  | chatUpdate (channel : String) (ts : ℚ)
  | chatDelete (channel : String) (ts : ℚ)
  | filesInfo (file : String)
deriving DecidableEq

/-- A Slack channel record (fields elided beyond the name). -/
structure SlackChannel where
  name : String
deriving DecidableEq

/-- Results of the Slack Web API calls. -/
structure SlackOracle where
  conversationsList : List String
  conversationsHistory : String → Nat → Except String (List SlackRawMsg)
  conversationsInfo : String → Option SlackChannel
  usersInfo : String → Option SlackUser
  postMessage : String → Except String SlackRawMsg
  chatUpdate : String → ℚ → Except String SlackRawMsg
  chatDelete : String → ℚ → Except String Unit
  filesInfo : String → Option (Option String)

/-- Events broadcast by the Slack handlers. -/
inductive SlackEvent where
  | message (m : SlackMsgF)
  | messageUpdated (m : SlackMsgF)
  | messageDeleted (channel_id : String) (ts : ℚ)
deriving DecidableEq

/-- `getUserInfo` (lines 705-723) run to completion: cache hit, or one
`users.info` call whose success populates the cache (errors return
`null`). -/
def getUserInfoSeq (o : SlackOracle) (uC : JsMap SlackUser) (userId : String) :
    Option SlackUser × JsMap SlackUser × List SlackCall :=
  match JsMap.get? uC userId with
  | some u => (some u, uC, [])
  | none =>
    match o.usersInfo userId with
    | some u => (some u, JsMap.set uC userId u, [.usersInfo userId])
    | none => (none, uC, [.usersInfo userId])

/-- `getChannelInfo` (lines 728-746), same read-through shape. -/
def getChannelInfoSeq (o : SlackOracle) (chC : JsMap SlackChannel)
    (channelId : String) :
    Option SlackChannel × JsMap SlackChannel × List SlackCall :=
  match JsMap.get? chC channelId with
  | some c => (some c, chC, [])
  | none =>
    match o.conversationsInfo channelId with
    | some c => (some c, JsMap.set chC channelId c, [.conversationsInfo channelId])
    | none => (none, chC, [.conversationsInfo channelId])

/-- `await Promise.all(userIds.map(getUserInfo))` over the distinct author
ids of a page, threading the user cache. -/
def fetchUsers (o : SlackOracle) : JsMap SlackUser → List String →
    JsMap SlackUser × List SlackCall
  | uC, [] => (uC, [])
  | uC, u :: rest =>
    let r1 := getUserInfoSeq o uC u
    let r2 := fetchUsers o r1.2.1 rest
    (r2.1, r1.2.2 ++ r2.2)

/-- The shared 503 guard reply of the Slack command handlers. -/
def slackNotConnected : ApiResp :=
  ⟨503, false, some "Slack not connected. Please check your token.", none⟩

/-- Response of `POST /api/slack/messages`. -/
structure SlackMsgsResp where
  status : Nat
  success : Bool
  error : Option String
  messages : List SlackMsgF
deriving DecidableEq

/-- State of the Slack server the message endpoints touch. -/
structure SlackState where
  channelCache : JsMap SlackChannel
  userCache : JsMap SlackUser
  messageCache : JsMap (List SlackMsgF)
  lastMessageTimestamps : JsMap ℚ
deriving DecidableEq

/-- `GET /api/slack/channels` (lines 784-866): three `conversations.list`
calls whose individual failures are swallowed into empty pages (DM name
resolution elided). -/
def slackChannels (o : SlackOracle) (st : SlackState) (isReady hasClient : Bool) :
    TgContactsResp × SlackState × List SlackCall :=
  if hasClient = false ∨ isReady = false then
    (⟨503, false, some "Slack not connected. Please check your token.", none⟩,
      st, [])
  else
    (⟨200, true, none, some o.conversationsList.length⟩, st,
      [.conversationsList, .conversationsList, .conversationsList])

/-- `POST /api/slack/messages` (lines 869-955): guard, required
`channel_id`, channel resolution (404 on failure), one
`conversations.history` with `Math.min(limit, 200)`, user resolution for
the distinct authors, formatting, `.reverse()` to oldest-first, message
cache and watermark updates. -/
def slackMessages (o : SlackOracle) (st : SlackState) (isReady hasClient : Bool)
    (channel_id : Option String) (limit : Nat) :
    SlackMsgsResp × SlackState × List SlackCall :=
  if hasClient = false ∨ isReady = false then
    (⟨503, false, some "Slack not connected. Please check your token.", []⟩, st, [])
  else
    match truthy channel_id with
    | none => (⟨400, false, some "channel_id is required", []⟩, st, [])
    | some cid =>
      match getChannelInfoSeq o st.channelCache cid with
      | (none, chC2, calls1) =>
        (⟨404, false, some "Channel not found", []⟩, { st with channelCache := chC2 },
          calls1)
      | (some _, chC2, calls1) =>
        match o.conversationsHistory cid (min limit 200) with
        | .error e =>
          (⟨500, false, some e, []⟩, { st with channelCache := chC2 },
            calls1 ++ [.conversationsHistory cid])
        | .ok page =>
          let users := (page.filterMap SlackRawMsg.user).dedup
          let fu := fetchUsers o st.userCache users
          let formatted := (page.map formatSlackMessage).reverse
          let st2 : SlackState :=
            { channelCache := chC2, userCache := fu.1,
              messageCache := JsMap.set st.messageCache cid formatted,
              lastMessageTimestamps :=
                match page.head? with
                | some newest => JsMap.set st.lastMessageTimestamps cid newest.ts
                | none => st.lastMessageTimestamps }
          (⟨200, true, none, formatted⟩, st2,
            calls1 ++ [.conversationsHistory cid] ++ fu.2)

/-- `POST /api/slack/send` (lines 958-1011): guard, required params,
`chat.postMessage`, then the mutate-then-echo `io.emit('slack_message')`
of the formatted result. -/
def slackSend (o : SlackOracle) (st : SlackState) (isReady hasClient : Bool)
    (channel_id text : Option String) :
    ApiResp × SlackState × List SlackCall × List SlackEvent :=
  if hasClient = false ∨ isReady = false then (slackNotConnected, st, [], [])
  else
    match truthy channel_id, truthy text with
    | some cid, some _txt =>
      match o.postMessage cid with
      | .error e => (⟨500, false, some e, none⟩, st, [.postMessage cid], [])
      | .ok msg =>
        let ci := getChannelInfoSeq o st.channelCache cid
        (⟨200, true, none, none⟩, { st with channelCache := ci.2.1 },
          [.postMessage cid] ++ ci.2.2, [.message (formatSlackMessage msg)])
    | _, _ =>
      (⟨400, false, some "channel_id and text are required", none⟩, st, [], [])

/-- `POST /api/slack/edit` (lines 1126-1178): guard, required params,
`chat.update`, then `io.emit('slack_message_updated')` of the formatted
result. -/
def slackEdit (o : SlackOracle) (st : SlackState) (isReady hasClient : Bool)
    (channel_id : Option String) (message_ts : Option ℚ) (text : Option String) :
    ApiResp × SlackState × List SlackCall × List SlackEvent :=
  if hasClient = false ∨ isReady = false then (slackNotConnected, st, [], [])
  else
    match truthy channel_id, message_ts, truthy text with
    | some cid, some ts, some _txt =>
      match o.chatUpdate cid ts with
      | .error e => (⟨500, false, some e, none⟩, st, [.chatUpdate cid ts], [])
      | .ok msg =>
        let ci := getChannelInfoSeq o st.channelCache cid
        (⟨200, true, none, none⟩, { st with channelCache := ci.2.1 },
          [.chatUpdate cid ts] ++ ci.2.2, [.messageUpdated (formatSlackMessage msg)])
    | _, _, _ =>
      (⟨400, false, some "channel_id, message_ts, and text are required", none⟩,
        st, [], [])

/-- `POST /api/slack/delete` (lines 1181-1230): guard, required params,
`chat.delete`, then `io.emit('slack_message_deleted')` with the channel id
and ts. -/
def slackDelete (o : SlackOracle) (st : SlackState) (isReady hasClient : Bool)
    (channel_id : Option String) (message_ts : Option ℚ) :
    ApiResp × SlackState × List SlackCall × List SlackEvent :=
  if hasClient = false ∨ isReady = false then (slackNotConnected, st, [], [])
  else
    match truthy channel_id, message_ts with
    | some cid, some ts =>
      match o.chatDelete cid ts with
      | .error e => (⟨500, false, some e, none⟩, st, [.chatDelete cid ts], [])
      | .ok _ =>
        (⟨200, true, none, none⟩, st, [.chatDelete cid ts],
          [.messageDeleted cid ts])
    | _, _ =>
      (⟨400, false, some "channel_id and message_ts are required", none⟩, st, [], [])

/-- Reply of `GET /api/slack/media/:file_id`: a JSON error or a redirect to
the file URL. -/
inductive SlackMediaOut where
  | jsonError (status : Nat) (error : String)
  | redirect (url : String)
deriving DecidableEq

/-- `GET /api/slack/media/:file_id` (lines 1081-1123): guard (503
`Slack not connected`), `files.info`, 404s for a missing file or URL,
otherwise a redirect to `url_private`/`permalink`. -/
def slackMedia (o : SlackOracle) (isReady hasClient : Bool) (file_id : String) :
    SlackMediaOut × List SlackCall :=
  if hasClient = false ∨ isReady = false then
    (.jsonError 503 "Slack not connected", [])
  else
    match o.filesInfo file_id with
    | none => (.jsonError 404 "File not found", [.filesInfo file_id])
    | some url? =>
      match truthy url? with
      | none => (.jsonError 404 "File URL not available", [.filesInfo file_id])
      | some url => (.redirect url, [.filesInfo file_id])

/-! ## WhatsApp server model (backend/node/whatsapp_server.js)

The guard of every WhatsApp command handler is `if (!isReady || !client)`
answering 400.  The contacts and messages handlers first run
`checkAndResetIfSessionDeleted`, which calls `client.destroy()` only when
the server currently believes it is authenticated *and* ready while the
session folder is gone and the auth grace window has passed.  The
getChats/fetchMessages retry loops and the warmup delay are elided: a call
is modelled by its final outcome. -/

/-- The whatsapp-web.js client calls the handlers can make. -/
inductive WaCall where
  | destroy
  | getChats
  | getChatById (chat : String)
  | fetchMessages (chat : String) (limit : Nat)
  | getMessageById (id : String)
  | downloadMedia (id : String)
  | sendMessage (chat : String)
  | msgDelete (id : String)
  | msgEdit (id : String)
deriving DecidableEq

/-- Session flags of the WhatsApp server. -/
structure WaState where
  isAuthenticated : Bool
  isReady : Bool
  hasClient : Bool
deriving DecidableEq

/-- Results of the whatsapp-web.js calls.  `downloadMedia` yields
`(mimetype, filename, data)` of the `MessageMedia`. -/
structure WaOracle where
  getChats : Except String (List String)
  getChatById : String → Except String Unit
  fetchMessages : String → Nat → Except String (List WaMsg)
  getMessageById : String → Option WaMsg
  downloadMedia : String → Option (Option String × Option String × ByteBuf)
  sendMessage : String → Except String String
  msgDelete : String → Except String Unit
  msgEdit : String → Except String (String × String)

/-- Events broadcast by the WhatsApp server (emitted only from the
whatsapp-web.js event handlers, never from the HTTP command handlers). -/
inductive WaEvent where
  | message (id : Option String)
  | messageUpdate (id : Option String)
deriving DecidableEq

/-- `checkAndResetIfSessionDeleted` (lines 123-149). -/
def checkAndResetIfSessionDeleted (st : WaState)
    (sessionDataDirExists withinGracePeriod : Bool) : WaState × List WaCall :=
  if st.isAuthenticated = true ∧ st.isReady = true ∧ st.hasClient = true ∧
      sessionDataDirExists = false ∧ withinGracePeriod = false then
    (⟨false, false, false⟩, [.destroy])
  else (st, [])

/-- The shared 400 guard reply of the WhatsApp command handlers. -/
def waNotConnected : ApiResp :=
  ⟨400, false, some "WhatsApp not connected. Please authenticate first.", none⟩

/-- A formatted WhatsApp message (`id` is `msg.id._serialized`). -/
structure WaMsgF where
  id : Option String
  body : String
  fromMe : Bool
  timestamp : Int
  hasMedia : Bool
deriving DecidableEq

/-- The per-message formatting of `POST /api/whatsapp/messages`. -/
def formatWaMessage (m : WaMsg) : WaMsgF :=
  { id := m.serializedId, body := m.body, fromMe := m.fromMe,
    timestamp := m.timestamp, hasMedia := m.hasMedia }

/-- Response of `POST /api/whatsapp/messages`. -/
structure WaMsgsResp where
  status : Nat
  success : Bool
  error : Option String
  messages : List WaMsgF
deriving DecidableEq

/-- `POST /api/whatsapp/contacts` (lines 727-800): session check, guard,
`client.getChats`, formatting elided to the count of the first `limit`
chats. -/
def whatsappContacts (o : WaOracle) (st : WaState)
    (sessionDataDirExists withinGracePeriod : Bool) (limit : Nat) :
    TgContactsResp × WaState × List WaCall :=
  let cr := checkAndResetIfSessionDeleted st sessionDataDirExists withinGracePeriod
  if cr.1.isReady = false ∨ cr.1.hasClient = false then
    (⟨400, false, some "WhatsApp not connected. Please authenticate first.",
      none⟩, cr.1, cr.2)
  else
    match o.getChats with
    | .error e => (⟨500, false, some e, none⟩, cr.1, cr.2 ++ [.getChats])
    | .ok chats =>
      (⟨200, true, none, some (chats.take limit).length⟩, cr.1,
        cr.2 ++ [.getChats])

/-- `POST /api/whatsapp/messages` (lines 864-994): session check, guard,
required `contact_id`, `getChatById` + `fetchMessages`, caching of every
raw message via `cacheWhatsAppMessage`, formatting and the oldest-first
timestamp sort. -/
def whatsappMessages (o : WaOracle) (cacheById : JsMap WaMsg) (st : WaState)
    (sessionDataDirExists withinGracePeriod : Bool)
    (contact_id : Option String) (limit : Nat) :
    WaMsgsResp × WaState × JsMap WaMsg × List WaCall :=
  let cr := checkAndResetIfSessionDeleted st sessionDataDirExists withinGracePeriod
  if cr.1.isReady = false ∨ cr.1.hasClient = false then
    (⟨400, false, some "WhatsApp not connected. Please authenticate first.",
      []⟩, cr.1, cacheById, cr.2)
  else
    match truthy contact_id with
    | none => (⟨400, false, some "contact_id is required", []⟩, cr.1, cacheById, cr.2)
    | some cid =>
      match o.getChatById cid with
      | .error e =>
        (⟨500, false, some e, []⟩, cr.1, cacheById, cr.2 ++ [.getChatById cid])
      | .ok _ =>
        match o.fetchMessages cid limit with
        | .error e =>
          (⟨500, false, some e, []⟩, cr.1, cacheById,
            cr.2 ++ [.getChatById cid, .fetchMessages cid limit])
        | .ok msgs =>
          let cache2 := msgs.foldl cacheWhatsAppMessage cacheById
          let formatted := (msgs.map formatWaMessage).mergeSort
            (fun a b => decide (a.timestamp ≤ b.timestamp))
          (⟨200, true, none, formatted⟩, cr.1, cache2,
            cr.2 ++ [.getChatById cid, .fetchMessages cid limit])

/-- JS `str.split(sep)` on characters. -/
def splitOnChar (sep : Char) : List Char → List (List Char)
  | [] => [[]]
  | c :: rest =>
    if c = sep then [] :: splitOnChar sep rest
    else
      match splitOnChar sep rest with
      | h :: t => (c :: h) :: t
      | [] => [[c]]

/-- `safeMime.includes('/') ? safeMime.split('/')[1] : 'bin'`. -/
def waMimeExt (mime : String) : String :=
  if mime.contains '/' then
    if ((mime.toList.dropWhile (fun c => c ≠ '/')).drop 1).takeWhile
        (fun c => c ≠ '/') = [] then "bin"
    else String.mk (((mime.toList.dropWhile (fun c => c ≠ '/')).drop 1).takeWhile
      (fun c => c ≠ '/'))
  else "bin"

/-- Message resolution of `GET /api/whatsapp/media/:messageId`
(lines 1012-1029): the bounded cache first, then `getMessageById` (errors
swallowed), then the chat-scan fallback that parses the chat id out of the
serialized message id, fetches the 500 most recent messages and caches a
hit. -/
def waResolveMessage (o : WaOracle) (cacheById : JsMap WaMsg)
    (messageId : String) : Option WaMsg × JsMap WaMsg × List WaCall :=
  match JsMap.get? cacheById messageId with
  | some m => (some m, cacheById, [])
  | none =>
    match o.getMessageById messageId with
    | some m => (some m, cacheById, [.getMessageById messageId])
    | none =>
      let parts := splitOnChar '_' messageId.toList
      match (if parts.length ≥ 3 then parts.get? 1 else none) with
      | none => (none, cacheById, [.getMessageById messageId])
      | some chatIdC =>
        match o.getChatById (String.mk chatIdC) with
        | .error _ =>
          (none, cacheById,
            [.getMessageById messageId, .getChatById (String.mk chatIdC)])
        | .ok _ =>
          match o.fetchMessages (String.mk chatIdC) 500 with
          | .error _ =>
            (none, cacheById,
              [.getMessageById messageId, .getChatById (String.mk chatIdC),
                .fetchMessages (String.mk chatIdC) 500])
          | .ok recent =>
            match recent.find? (fun m => m.serializedId = some messageId) with
            | some m =>
              (some m, cacheWhatsAppMessage cacheById m,
                [.getMessageById messageId, .getChatById (String.mk chatIdC),
                  .fetchMessages (String.mk chatIdC) 500])
            | none =>
              (none, cacheById,
                [.getMessageById messageId, .getChatById (String.mk chatIdC),
                  .fetchMessages (String.mk chatIdC) 500])

/-- `GET /api/whatsapp/media/:messageId` (lines 1000-1103): guard, message
resolution, media checks, download, then the shared range block
`rangeSend` over the decoded buffer. -/
def whatsappMedia (o : WaOracle) (cacheById : JsMap WaMsg) (st : WaState)
    (messageId : String) (range : Option String) :
    MediaFileOut × JsMap WaMsg × List WaCall :=
  if st.isReady = false ∨ st.hasClient = false then
    (.jsonError 400 "WhatsApp not connected. Please authenticate first.",
      cacheById, [])
  else
    match waResolveMessage o cacheById messageId with
    | (none, cache2, calls) =>
      (.jsonError 404
        "Message not found (it may be too old to resolve). Try refreshing the chat and retry.",
        cache2, calls)
    | (some m, cache2, calls) =>
      if m.hasMedia = false then
        (.jsonError 400 "Message does not contain media", cache2, calls)
      else
        match o.downloadMedia messageId with
        | none =>
          (.jsonError 500 "Failed to download media", cache2,
            calls ++ [.downloadMedia messageId])
        | some (mime?, fname?, data) =>
          let safeMime := (truthy mime?).getD "application/octet-stream"
          let filename :=
            match truthy fname? with
            | some f => f
            | none => "media_" ++ messageId ++ "." ++ waMimeExt safeMime
          (.media safeMime filename (rangeSend data range), cache2,
            calls ++ [.downloadMedia messageId])

/-- `POST /api/whatsapp/send` (lines 1217-1250): guard, required params,
`client.sendMessage` — and no broadcast at all: the initiator's echo rides
on the ingestion path (the `message_create` client event handler). -/
def whatsappSend (o : WaOracle) (st : WaState) (contact_id text : Option String) :
    ApiResp × List WaCall × List WaEvent :=
  if st.isReady = false ∨ st.hasClient = false then (waNotConnected, [], [])
  else
    match truthy contact_id, truthy text with
    | some cid, some _txt =>
      match o.sendMessage cid with
      | .ok _id => (⟨200, true, none, none⟩, [.sendMessage cid], [])
      | .error e => (⟨500, false, some e, none⟩, [.sendMessage cid], [])
    | _, _ =>
      (⟨400, false, some "contact_id and text are required", none⟩, [], [])

/-- `DELETE /api/whatsapp/message/:messageId` (lines 1109-1152): guard,
`getMessageById` (404 on null), the `fromMe` ownership check (403),
`message.delete(true)` — and no broadcast after the delete. -/
def whatsappDelete (o : WaOracle) (st : WaState) (messageId : String) :
    ApiResp × List WaCall × List WaEvent :=
  if st.isReady = false ∨ st.hasClient = false then (waNotConnected, [], [])
  else
    match o.getMessageById messageId with
    | none =>
      (⟨404, false, some "Message not found", none⟩,
        [.getMessageById messageId], [])
    | some m =>
      if m.fromMe = false then
        (⟨403, false, some "You can only delete your own messages", none⟩,
          [.getMessageById messageId], [])
      else
        match o.msgDelete messageId with
        | .ok _ =>
          (⟨200, true, none, none⟩,
            [.getMessageById messageId, .msgDelete messageId], [])
        | .error e =>
          (⟨500, false, some e, none⟩,
            [.getMessageById messageId, .msgDelete messageId], [])

/-- `PUT /api/whatsapp/message/:messageId` (lines 1158-1211): guard,
required `text`, `getMessageById` (404 on null), the `fromMe` ownership
check (403), `message.edit(text)` — and no broadcast after the edit. -/
def whatsappEdit (o : WaOracle) (st : WaState) (messageId : String)
    (text : Option String) :
    ApiResp × List WaCall × List WaEvent :=
  if st.isReady = false ∨ st.hasClient = false then (waNotConnected, [], [])
  else
    match truthy text with
    | none => (⟨400, false, some "text is required", none⟩, [], [])
    | some _txt =>
      match o.getMessageById messageId with
      | none =>
        (⟨404, false, some "Message not found", none⟩,
          [.getMessageById messageId], [])
      | some m =>
        if m.fromMe = false then
          (⟨403, false, some "You can only edit your own messages", none⟩,
            [.getMessageById messageId], [])
        else
          match o.msgEdit messageId with
          | .ok _res =>
            (⟨200, true, none, none⟩,
              [.getMessageById messageId, .msgEdit messageId], [])
          | .error e =>
            (⟨500, false, some e, none⟩,
              [.getMessageById messageId, .msgEdit messageId], [])

/-! ### Claim C4: mutate-then-echo -/

/-- A concrete WhatsApp oracle for the C4 counterexample: message `m1` is
the caller's own and deletes successfully. -/
def waOracleC4 : WaOracle :=
  { getChats := .ok [],
    getChatById := fun _ => .ok (),
    fetchMessages := fun _ _ => .ok [],
    getMessageById := fun _ => some ⟨some "m1", true, false, "hello", 100⟩,
    downloadMedia := fun _ => none,
    sendMessage := fun _ => .ok "m2",
    msgDelete := fun _ => .ok (),
    msgEdit := fun _ => .ok ("m1", "edited") }

/-- Counterexample to claim C4: a successful
`DELETE /api/whatsapp/message/:messageId` publishes nothing — the deletion
succeeds and the broadcast list is empty. -/
theorem claim_C4_counterexample :
    (whatsappDelete waOracleC4 ⟨true, true, true⟩ "m1").1.success = true ∧
    (whatsappDelete waOracleC4 ⟨true, true, true⟩ "m1").2.2 = [] := by
  constructor <;> rfl

/-- Claim C4 (amended).  Mutate-then-echo holds only partially:
(1)-(3) a successful Slack send/edit/delete immediately publishes exactly
one `slack_message` / `slack_message_updated` / `slack_message_deleted`
event carrying the mutation; (4)-(5) a successful Telegram send/sendFile
immediately publishes one `telegram_outgoing_sent` event; (6)-(10) the
Telegram edit and delete handlers and the WhatsApp send, edit and delete
handlers never publish anything — their initiators rely on the ingestion
path for the echo. -/
theorem claim_C4_echo_amended :
    (∀ (o : SlackOracle) (st : SlackState) (cid txt : String) (msg : SlackRawMsg),
      cid ≠ "" → txt ≠ "" → o.postMessage cid = .ok msg →
      (slackSend o st true true (some cid) (some txt)).1.success = true ∧
      (slackSend o st true true (some cid) (some txt)).2.2.2 =
        [.message (formatSlackMessage msg)]) ∧
    (∀ (o : SlackOracle) (st : SlackState) (cid txt : String) (ts : ℚ)
        (msg : SlackRawMsg),
      cid ≠ "" → txt ≠ "" → o.chatUpdate cid ts = .ok msg →
      (slackEdit o st true true (some cid) (some ts) (some txt)).1.success = true ∧
      (slackEdit o st true true (some cid) (some ts) (some txt)).2.2.2 =
        [.messageUpdated (formatSlackMessage msg)]) ∧
    (∀ (o : SlackOracle) (st : SlackState) (cid : String) (ts : ℚ),
      cid ≠ "" → o.chatDelete cid ts = .ok () →
      (slackDelete o st true true (some cid) (some ts)).1.success = true ∧
      (slackDelete o st true true (some cid) (some ts)).2.2.2 =
        [.messageDeleted cid ts]) ∧
    (∀ (o : TgOracle) (cache : JsMap TgEntity) (cid txt : String)
        (ent : TgEntity) (cache2 : JsMap TgEntity) (calls : List TgCall)
        (msg : TgMessage),
      cid ≠ "" → txt ≠ "" →
      getEntityForChatId o cache cid = (.ok ent, cache2, calls) →
      o.sendMessage cid = .ok msg →
      (telegramSend o cache true true (some cid) (some txt)).1.success = true ∧
      (telegramSend o cache true true (some cid) (some txt)).2.2.2 =
        [.outgoingSent cid (some msg.id)]) ∧
    (∀ (o : TgOracle) (cache : JsMap TgEntity) (cid dat : String)
        (ent : TgEntity) (cache2 : JsMap TgEntity) (calls : List TgCall)
        (sent : TgMessage),
      cid ≠ "" → dat ≠ "" →
      getEntityForChatId o cache cid = (.ok ent, cache2, calls) →
      o.sendFile cid = .ok sent →
      (telegramSendFile o cache true true (some cid) (some dat)).1.success = true ∧
      (telegramSendFile o cache true true (some cid) (some dat)).2.2.2 =
        [.outgoingSent cid (some sent.id)]) ∧
    (∀ (o : TgOracle) (cache : JsMap TgEntity) (r c : Bool)
        (cid mid txt : Option String),
      (telegramEdit o cache r c cid mid txt).2.2.2 = []) ∧
    (∀ (o : TgOracle) (cache : JsMap TgEntity) (r c : Bool)
        (cid mid : Option String),
      (telegramDelete o cache r c cid mid).2.2.2 = []) ∧
    (∀ (o : WaOracle) (st : WaState) (cid txt : Option String),
      (whatsappSend o st cid txt).2.2 = []) ∧
    (∀ (o : WaOracle) (st : WaState) (mid : String) (txt : Option String),
      (whatsappEdit o st mid txt).2.2 = []) ∧
    (∀ (o : WaOracle) (st : WaState) (mid : String),
      (whatsappDelete o st mid).2.2 = []) := by
  refine ⟨?_, ?_, ?_, ?_, ?_, ?_, ?_, ?_, ?_, ?_⟩
  · intro o st cid txt msg hc ht hpost
    unfold slackSend
    rw [if_neg (by simp)]
    have htc : truthy (some cid) = some cid := by simp [truthy, hc]
    have htt : truthy (some txt) = some txt := by simp [truthy, ht]
    simp only [htc, htt, hpost]
    refine ⟨?_, ?_⟩ <;> first | rfl | trivial
  · intro o st cid txt ts msg hc ht hupd
    unfold slackEdit
    rw [if_neg (by simp)]
    have htc : truthy (some cid) = some cid := by simp [truthy, hc]
    have htt : truthy (some txt) = some txt := by simp [truthy, ht]
    simp only [htc, htt, hupd]
    refine ⟨?_, ?_⟩ <;> first | rfl | trivial
  · intro o st cid ts hc hdel
    unfold slackDelete
    rw [if_neg (by simp)]
    have htc : truthy (some cid) = some cid := by simp [truthy, hc]
    simp only [htc, hdel]
    refine ⟨?_, ?_⟩ <;> first | rfl | trivial
  · intro o cache cid txt ent cache2 calls msg hc ht hent hsend
    unfold telegramSend
    rw [if_neg (by simp)]
    have htc : truthy (some cid) = some cid := by simp [truthy, hc]
    have htt : truthy (some txt) = some txt := by simp [truthy, ht]
    simp only [htc, htt, hent, hsend]
    refine ⟨?_, ?_⟩ <;> first | rfl | trivial
  · intro o cache cid dat ent cache2 calls sent hc hd hent hsf
    unfold telegramSendFile
    rw [if_neg (by simp)]
    have htc : truthy (some cid) = some cid := by simp [truthy, hc]
    have htd : truthy (some dat) = some dat := by simp [truthy, hd]
    simp only [htc, htd, hent, hsf]
    refine ⟨?_, ?_⟩ <;> first | rfl | trivial
  · intro o cache r c cid mid txt
    unfold telegramEdit
    repeat' split
    all_goals rfl
  · intro o cache r c cid mid
    unfold telegramDelete
    repeat' split
    all_goals rfl
  · intro o st cid txt
    unfold whatsappSend
    repeat' split
    all_goals rfl
  · intro o st mid txt
    unfold whatsappEdit
    repeat' split
    all_goals rfl
  · intro o st mid
    unfold whatsappDelete
    repeat' split
    all_goals rfl

/-- A concrete Slack oracle for the C4 witness. -/
def slackOracleC4 : SlackOracle :=
  { conversationsList := [],
    conversationsHistory := fun _ _ => .ok [],
    conversationsInfo := fun _ => some ⟨"general"⟩,
    usersInfo := fun _ => none,
    postMessage := fun _ => .ok ⟨5, some "U1", "hi"⟩,
    chatUpdate := fun _ _ => .ok ⟨5, some "U1", "edited"⟩,
    chatDelete := fun _ _ => .ok (),
    filesInfo := fun _ => none }

/-- The empty Slack server state. -/
def slackState0 : SlackState := ⟨[], [], [], []⟩

/-- A concrete Telegram oracle whose `sendMessage` succeeds, for the C4
witness. -/
def tgOracleC4 : TgOracle :=
  { getEntity := fun _ => .ok ⟨1, none, none, none⟩,
    getDialogs := fun _ => [],
    getMessages := fun _ _ => [],
    getMessageById := fun _ => none,
    downloadMedia := none,
    sendMessage := fun _ => .ok ⟨9, "yo", 100, true, none, none⟩,
    sendFile := fun _ => .error "unused",
    editMessage := fun _ _ => .error "unused",
    deleteMessages := fun _ _ => .error "unused" }

/-- Witness for the amended C4 at concrete oracles. -/
theorem claim_C4_echo_amended_witness :
    ((slackSend slackOracleC4 slackState0 true true (some "C1") (some "hi")).2.2.2 =
      [.message (formatSlackMessage ⟨5, some "U1", "hi"⟩)]) ∧
    ((slackDelete slackOracleC4 slackState0 true true (some "C1") (some 5)).2.2.2 =
      [.messageDeleted "C1" 5]) ∧
    ((telegramSend tgOracleC4 [] true true (some "7") (some "yo")).2.2.2 =
      [.outgoingSent "7" (some 9)]) ∧
    ((whatsappDelete waOracleC4 ⟨true, true, true⟩ "m1").2.2 = []) := by
  refine ⟨?_, ?_, ?_, ?_⟩
  · exact (claim_C4_echo_amended.1 slackOracleC4 slackState0 "C1" "hi"
      ⟨5, some "U1", "hi"⟩ (by decide) (by decide) rfl).2
  · exact (claim_C4_echo_amended.2.2.1 slackOracleC4 slackState0 "C1" 5
      (by decide) rfl).2
  · exact (claim_C4_echo_amended.2.2.2.1 tgOracleC4 [] "7" "yo"
      ⟨1, none, none, none⟩
      [("1", ⟨1, none, none, none⟩), ("7", ⟨1, none, none, none⟩)]
      [.getEntity "7"] ⟨9, "yo", 100, true, none, none⟩
      (by decide) (by decide) rfl rfl).2
  · exact claim_C4_echo_amended.2.2.2.2.2.2.2.2.2 waOracleC4 ⟨true, true, true⟩ "m1"

/-! ### Claim C1: the not-connected guard -/

/-- Claim C1.  Every modelled Command Gateway handler invoked while the
provider's session is not ready returns its NotConnected-style error reply
unchanged state, an empty provider-call trace, and (where applicable) no
broadcast events: Telegram contacts/messages/send/sendFile/edit/delete/media,
Slack channels/messages/send/edit/delete/media, WhatsApp
contacts/messages/media/send/edit/delete.  For WhatsApp the
`checkAndResetIfSessionDeleted` prelude also issues no call, because its
destroy branch requires the session to currently be ready. -/
theorem claim_C1_not_connected_guard :
    (∀ (o : TgOracle) (cache : JsMap TgEntity) (c : Bool) (lim : Nat),
      telegramContacts o cache false c lim =
        (⟨400, false, some "Telegram not connected. Please authenticate first.",
          none⟩, cache, [])) ∧
    (∀ (o : TgOracle) (cache : JsMap TgEntity) (c : Bool)
        (cid bid : Option String) (lim : Nat),
      telegramMessages o cache false c cid lim bid =
        (⟨400, false, some "Telegram not connected. Please authenticate first.",
          [], none, none⟩, cache, [])) ∧
    (∀ (o : TgOracle) (cache : JsMap TgEntity) (c : Bool)
        (cid txt : Option String),
      telegramSend o cache false c cid txt =
        (⟨400, false, some "Telegram not connected. Please authenticate first.",
          none⟩, cache, [], [])) ∧
    (∀ (o : TgOracle) (cache : JsMap TgEntity) (c : Bool)
        (cid dat : Option String),
      telegramSendFile o cache false c cid dat =
        (⟨400, false, some "Telegram not connected. Please authenticate first.",
          none⟩, cache, [], [])) ∧
    (∀ (o : TgOracle) (cache : JsMap TgEntity) (c : Bool)
        (cid mid txt : Option String),
      telegramEdit o cache false c cid mid txt =
        (⟨400, false, some "Telegram not connected. Please authenticate first.",
          none⟩, cache, [], [])) ∧
    (∀ (o : TgOracle) (cache : JsMap TgEntity) (c : Bool)
        (cid mid : Option String),
      telegramDelete o cache false c cid mid =
        (⟨400, false, some "Telegram not connected. Please authenticate first.",
          none⟩, cache, [], [])) ∧
    (∀ (o : TgOracle) (cache : JsMap TgEntity) (c : Bool) (cid mid : String)
        (range : Option String),
      telegramMediaFile o cache false c cid mid range =
        (.jsonError 400 "Telegram not connected", cache, [])) ∧
    (∀ (o : SlackOracle) (st : SlackState) (c : Bool),
      slackChannels o st false c =
        (⟨503, false, some "Slack not connected. Please check your token.",
          none⟩, st, [])) ∧
    (∀ (o : SlackOracle) (st : SlackState) (c : Bool) (cid : Option String)
        (lim : Nat),
      slackMessages o st false c cid lim =
        (⟨503, false, some "Slack not connected. Please check your token.",
          []⟩, st, [])) ∧
    (∀ (o : SlackOracle) (st : SlackState) (c : Bool) (cid txt : Option String),
      slackSend o st false c cid txt =
        (⟨503, false, some "Slack not connected. Please check your token.",
          none⟩, st, [], [])) ∧
    (∀ (o : SlackOracle) (st : SlackState) (c : Bool) (cid : Option String)
        (ts : Option ℚ) (txt : Option String),
      slackEdit o st false c cid ts txt =
        (⟨503, false, some "Slack not connected. Please check your token.",
          none⟩, st, [], [])) ∧
    (∀ (o : SlackOracle) (st : SlackState) (c : Bool) (cid : Option String)
        (ts : Option ℚ),
      slackDelete o st false c cid ts =
        (⟨503, false, some "Slack not connected. Please check your token.",
          none⟩, st, [], [])) ∧
    (∀ (o : SlackOracle) (c : Bool) (fid : String),
      slackMedia o false c fid = (.jsonError 503 "Slack not connected", [])) ∧
    (∀ (o : WaOracle) (a c d g : Bool) (lim : Nat),
      whatsappContacts o ⟨a, false, c⟩ d g lim =
        (⟨400, false, some "WhatsApp not connected. Please authenticate first.",
          none⟩, ⟨a, false, c⟩, [])) ∧
    (∀ (o : WaOracle) (cacheById : JsMap WaMsg) (a c d g : Bool)
        (cid : Option String) (lim : Nat),
      whatsappMessages o cacheById ⟨a, false, c⟩ d g cid lim =
        (⟨400, false, some "WhatsApp not connected. Please authenticate first.",
          []⟩, ⟨a, false, c⟩, cacheById, [])) ∧
    (∀ (o : WaOracle) (cacheById : JsMap WaMsg) (a c : Bool) (mid : String)
        (range : Option String),
      whatsappMedia o cacheById ⟨a, false, c⟩ mid range =
        (.jsonError 400 "WhatsApp not connected. Please authenticate first.",
          cacheById, [])) ∧
    (∀ (o : WaOracle) (a c : Bool) (cid txt : Option String),
      whatsappSend o ⟨a, false, c⟩ cid txt =
        (⟨400, false, some "WhatsApp not connected. Please authenticate first.",
          none⟩, [], [])) ∧
    (∀ (o : WaOracle) (a c : Bool) (mid : String) (txt : Option String),
      whatsappEdit o ⟨a, false, c⟩ mid txt =
        (⟨400, false, some "WhatsApp not connected. Please authenticate first.",
          none⟩, [], [])) ∧
    (∀ (o : WaOracle) (a c : Bool) (mid : String),
      whatsappDelete o ⟨a, false, c⟩ mid =
        (⟨400, false, some "WhatsApp not connected. Please authenticate first.",
          none⟩, [], [])) := by
  refine ⟨?_, ?_, ?_, ?_, ?_, ?_, ?_, ?_, ?_, ?_, ?_, ?_, ?_, ?_, ?_, ?_, ?_,
    ?_, ?_⟩
  · intro o cache c lim
    cases c <;> rfl
  · intro o cache c cid bid lim
    cases c <;> rfl
  · intro o cache c cid txt
    cases c <;> rfl
  · intro o cache c cid dat
    cases c <;> rfl
  · intro o cache c cid mid txt
    cases c <;> rfl
  · intro o cache c cid mid
    cases c <;> rfl
  · intro o cache c cid mid range
    cases c <;> rfl
  · intro o st c
    cases c <;> rfl
  · intro o st c cid lim
    cases c <;> rfl
  · intro o st c cid txt
    cases c <;> rfl
  · intro o st c cid ts txt
    cases c <;> rfl
  · intro o st c cid ts
    cases c <;> rfl
  · intro o c fid
    cases c <;> rfl
  · intro o a c d g lim
    cases a <;> cases c <;> cases d <;> cases g <;> rfl
  · intro o cacheById a c d g cid lim
    cases a <;> cases c <;> cases d <;> cases g <;> rfl
  · intro o cacheById a c mid range
    cases a <;> cases c <;> rfl
  · intro o a c cid txt
    cases a <;> cases c <;> rfl
  · intro o a c mid txt
    cases a <;> cases c <;> rfl
  · intro o a c mid
    cases a <;> cases c <;> rfl

end GPTI
